import Mathlib

/-!
Verification of the tool-calling orchestration engine of the `gt-bot`
Telegram assistant.

The development is a shallow embedding of the Python sources:

* `src/agent/tool_memory.py`   — `ToolSessionMemory` (per-run tool ledger)
* `src/agent/llm.py`           — `TelegramAgent` (bounded history, the
  iterative tool-execution loop, thinking/answer post-processing)
* `src/bot/telegram.py`        — `send_conversational_response` (chart-marker
  extraction and stripping on the transport side)
* `src/agent/persistent_memory.py` — `detect_memory_triggers` and the
  persistent-profile upserts

Python strings are modelled as Lean `String`s, and the handful of Python
`str` methods and `re` patterns used by those modules are reimplemented
character-for-character below (`py*` helpers).  Python's insertion-ordered
`dict` is modelled as an association list with in-place value replacement
(`alistInsert`).  External effects (the LLM transport, tool back-ends, the
SQLite profile store and the vector store) enter the model as explicit
function parameters; everything else follows the source line by line.

Notes on fidelity kept throughout the file:
* `str.lower`/`Char.toLower`, `str.strip`/whitespace trimming and
  `str.split()` agree on the ASCII data exercised here; the exotic Unicode
  corners (`\x0b`, `\x0c`, non-ASCII case folding) are not used by the bot's
  string constants and are noted where relevant.
* Python float division appears once, in the Jaccard test
  `len(common)/len(total) > 0.5`; since `0.5` is exactly representable and
  both operands are small naturals, the comparison is exactly the integer
  test `2*|common| > |total|`, which is how it is embedded.
-/

set_option maxRecDepth 200000
set_option maxHeartbeats 2000000

namespace GtBot

/-! ## Python string primitives -/

/-- Python `str.lower()` (ASCII case folding, which is all the bot's
string constants use). -/
def pyLower (s : String) : String := String.mk (s.data.map Char.toLower)

/-- Characters Python's `str.strip()` / `str.split()` / `\s` treat as
whitespace (restricted to the ASCII whitespace actually appearing in the
repository's strings). -/
def pyWS (c : Char) : Bool := c.isWhitespace

/-- Strip leading and trailing whitespace from a character list
(Python `str.strip()`). -/
def pyStripChars (l : List Char) : List Char :=
  ((l.dropWhile pyWS).reverse.dropWhile pyWS).reverse

/-- Python `str.strip()`. -/
def pyStrip (s : String) : String := String.mk (pyStripChars s.data)

/-- Does `needle` occur as a contiguous substring of `hay`?
(Python `needle in hay`.) -/
def containsSub (needle : List Char) : List Char → Bool
  | [] => needle.isEmpty
  | c :: t => needle.isPrefixOf (c :: t) || containsSub needle t

/-- String-level wrapper for `containsSub`. -/
def strContains (hay needle : String) : Bool := containsSub needle.data hay.data

/-- Python `str.split()` with no separator: split on whitespace runs,
dropping empty pieces.  `acc` accumulates the current word in reverse. -/
def pyWordsAux (acc : List Char) : List Char → List String
  | [] => if acc.isEmpty then [] else [String.mk acc.reverse]
  | c :: t =>
    if pyWS c then
      if acc.isEmpty then pyWordsAux [] t
      else String.mk acc.reverse :: pyWordsAux [] t
    else pyWordsAux (c :: acc) t

/-- Python `str.split()` (no argument). -/
def pyWords (s : String) : List String := pyWordsAux [] s.data

/-- Python `str.replace(old, new)` on character lists: replace every
non-overlapping occurrence, scanning left to right.  (Python's special
behaviour for `old = ""` is not modelled; the source only replaces
non-empty literals.)  `fuel` makes the recursion structural so the kernel
can evaluate it; every step consumes at least one character, so any
`fuel ≥ l.length` computes the scan to completion (the wrapper passes
exactly `l.length`). -/
def pyReplaceFuel (old new : List Char) : Nat → List Char → List Char
  | 0, l => l
  | _, [] => []
  | fuel + 1, c :: t =>
    if ¬ old.isEmpty ∧ old.isPrefixOf (c :: t) then
      new ++ pyReplaceFuel old new fuel ((c :: t).drop old.length)
    else
      c :: pyReplaceFuel old new fuel t

/-- Python `str.replace(old, new)`. -/
def pyReplace (s old new : String) : String :=
  String.mk (pyReplaceFuel old.data new.data s.data.length s.data)

/-- Python `str.find(sub)`: index (in characters) of the first occurrence,
`none` for Python's `-1`. -/
def findSubChars (needle : List Char) : List Char → Option Nat
  | [] => if needle.isEmpty then some 0 else none
  | c :: t =>
    if needle.isPrefixOf (c :: t) then some 0
    else (findSubChars needle t).map (· + 1)

/-- Python `str.find(sub)` on strings. -/
def pyFind (s needle : String) : Option Nat := findSubChars needle.data s.data

/-- Python `sep.join(parts)`. -/
def pyJoin (sep : String) : List String → String
  | [] => ""
  | [x] => x
  | x :: y :: t => x ++ sep ++ pyJoin sep (y :: t)

/-- Python `str.title()` for the ASCII data used here: the first letter of
every maximal alphabetic run is uppercased, the following letters are
lowercased.  `prevAlpha` records whether the previous character was
alphabetic. -/
def pyTitleChars (prevAlpha : Bool) : List Char → List Char
  | [] => []
  | c :: t =>
    if c.isAlpha then
      (if prevAlpha then c.toLower else c.toUpper) :: pyTitleChars true t
    else c :: pyTitleChars false t

/-- Python `str.title()`. -/
def pyTitle (s : String) : String := String.mk (pyTitleChars false s.data)

/-- Python `lst[-n:]`: the last `n` elements (the whole list when it is
shorter than `n`). -/
def lastN {α : Type} (n : Nat) (l : List α) : List α := l.drop (l.length - n)

/-- Everything after the first `:` of `s`
(Python `s.split(":", 1)[1]`; only evaluated when a colon is present). -/
def afterFirstColon (s : String) : String :=
  String.mk ((s.data.dropWhile (fun c => c ≠ ':')).drop 1)

/-- Everything before the first `:` of `s`, or all of `s` when it has no
colon (Python `s.split(":", 1)[0]` with the `":" in s` guard of
`get_context_summary`). -/
def beforeFirstColon (s : String) : String :=
  String.mk (s.data.takeWhile (fun c => c ≠ ':'))

/-! ## Association lists: Python's insertion-ordered `dict` -/

/-- First value bound to `k` (Python `d.get(k)`). -/
def alistGet {κ α : Type} [DecidableEq κ] (d : List (κ × α)) (k : κ) : Option α :=
  (d.find? (fun kv => kv.1 = k)).map (·.2)

/-- Python `d[k] = v`: replace the value in place when the key is present
(keeping its position, as Python dicts do), otherwise append at the end. -/
def alistInsert {κ α : Type} [DecidableEq κ] (d : List (κ × α)) (k : κ) (v : α) :
    List (κ × α) :=
  match d with
  | [] => [(k, v)]
  | (k', v') :: t => if k' = k then (k, v) :: t else (k', v') :: alistInsert t k v

/-- Python `args.get(key, default)` for string-valued argument mappings. -/
def argGet (args : List (String × String)) (key dflt : String) : String :=
  (alistGet args key).getD dflt

/-! ## `json.dumps(args, sort_keys=True)` -/

/-- JSON string escaping as used by `json.dumps` on the plain ASCII
argument values exercised here (`ensure_ascii` escaping of non-ASCII
characters is not needed by any claim and is omitted). -/
def jsonEscapeChar (c : Char) : String :=
  if c = '\\' then "\\\\"
  else if c = '"' then "\\\""
  else if c = '\n' then "\\n"
  else if c = '\t' then "\\t"
  else if c = '\r' then "\\r"
  else String.singleton c

/-- A JSON string literal. -/
def jsonStr (s : String) : String :=
  "\"" ++ String.join (s.data.map jsonEscapeChar) ++ "\""

/-- Code-point comparison of strings, matching Python's `<` used by
`sorted`/`sort_keys`. -/
def pyStrLtChars : List Char → List Char → Bool
  | [], [] => false
  | [], _ :: _ => true
  | _ :: _, [] => false
  | a :: s, b :: t =>
    if a.val < b.val then true
    else if b.val < a.val then false
    else pyStrLtChars s t

/-- `pyStrLtChars` on strings. -/
def pyStrLt (a b : String) : Bool := pyStrLtChars a.data b.data

/-- Stable insertion into a key-sorted association list. -/
def insertByKey (kv : String × String) :
    List (String × String) → List (String × String)
  | [] => [kv]
  | hd :: t => if pyStrLt kv.1 hd.1 then kv :: hd :: t else hd :: insertByKey kv t

/-- Stable sort by key (Python `sort_keys=True`). -/
def sortByKey (d : List (String × String)) : List (String × String) :=
  d.foldr insertByKey []

/-- `json.dumps(args, sort_keys=True)` for a string-keyed, string-valued
argument mapping. -/
def jsonDumps (args : List (String × String)) : String :=
  "\x7b" ++
    pyJoin ", " ((sortByKey args).map (fun kv => jsonStr kv.1 ++ ": " ++ jsonStr kv.2)) ++
  "\x7d"

/-! ## `src/agent/tool_memory.py` — Tool Session Memory

The Python `datetime.now()` timestamp on `ToolCall` is write-only (no method
reads it), so it is omitted from the record. -/

/-- Argument mapping of a tool call (`Dict[str, Any]`; every argument the
claims exercise is a string). -/
abbrev Args := List (String × String)

/-- `tool_memory.ToolCall` — record of a single tool call. -/
structure ToolCall where
  tool_name : String
  args : Args
  result : String
  success : Bool
deriving DecidableEq

/-- `tool_memory.ToolSessionMemory` — `calls` is the append-only ledger,
`failed_patterns` the insertion-ordered pattern-key → reason dict. -/
structure ToolSessionMemory where
  calls : List ToolCall
  failed_patterns : List (String × String)
deriving DecidableEq

namespace ToolSessionMemory

/-- `ToolSessionMemory.__init__` (also the post-`clear()` state). -/
def init : ToolSessionMemory := ⟨[], []⟩

/-- The search-style tools whose pattern key is the normalised query
(`_get_pattern_key`'s first branch). -/
def searchKeyTools : List String := ["search_catalogue", "search_drive_files", "search_gmail"]

/-- `args.get("query", args.get("search_term", ""))` as used by
`_get_pattern_key` and `has_similar_failure`. -/
def rawQuery (args : Args) : String := argGet args "query" (argGet args "search_term" "")

/-- `_get_pattern_key`: for search tools the lower-cased, stripped query;
for everything else the canonical JSON of the argument mapping. -/
def _get_pattern_key (tool_name : String) (args : Args) : String :=
  if tool_name ∈ searchKeyTools then
    tool_name ++ ":" ++ pyStrip (pyLower (rawQuery args))
  else
    tool_name ++ ":" ++ jsonDumps args

/-- `_extract_failure_reason`: concise reason derived from the result text. -/
def _extract_failure_reason (result : String) : String :=
  if strContains result "No items found" then "No items found in catalogues"
  else if strContains result "No files found" then "No files found in Drive"
  else if strContains (pyLower result) "not found" then "Resource not found"
  else if strContains (pyLower result) "multiple" then "Multiple matches found - need clarification"
  else if strContains (pyLower result) "timeout" then "API timeout"
  else if strContains result "503" || strContains result "Service Unavailable" then
    "API temporarily unavailable"
  else if result ≠ "" then String.mk (result.data.take 50) else "Unknown error"

/-- `record_call`: append the record; on failure store/overwrite the failure
reason under the call's pattern key. -/
def record_call (m : ToolSessionMemory) (tool_name : String) (args : Args)
    (result : String) (success : Bool) : ToolSessionMemory :=
  let m' : ToolSessionMemory := { m with calls := m.calls ++ [⟨tool_name, args, result, success⟩] }
  if success then m'
  else { m' with
         failed_patterns :=
           alistInsert m'.failed_patterns (_get_pattern_key tool_name args)
             (_extract_failure_reason result) }

/-- The stop-word set of `_is_search_variation`. -/
def stopwords : List String := ["the", "a", "an", "for", "in", "on", "with"]

/-- `set(query.lower().split()) - stopwords`, as an order-preserving
duplicate-free list (cardinalities and membership agree with Python's set). -/
def variationTokens (q : String) : List String :=
  ((pyWords (pyLower q)).filter (fun w => w ∉ stopwords)).eraseDups

/-- Bool-valued subset test on token lists (`set.issubset`). -/
def tokenSubset (w1 w2 : List String) : Bool := w1.all (fun x => w2.contains x)

/-- `_is_search_variation`: after stop-word removal, two non-empty token
sets are variations when one is a subset of the other or their Jaccard
overlap exceeds 1/2 (`len(common)/len(total) > 0.5`, embedded exactly as
`2*|common| > |total|`). -/
def _is_search_variation (query1 query2 : String) : Bool :=
  let words1 := variationTokens query1
  let words2 := variationTokens query2
  if ¬ words1.isEmpty ∧ ¬ words2.isEmpty then
    if tokenSubset words1 words2 || tokenSubset words2 words1 then true
    else
      let common := words1.filter (fun x => words2.contains x)
      let total := words1 ++ words2.filter (fun x => ¬ words1.contains x)
      2 * common.length > total.length
  else false

/-- The two tools subjected to the fuzzy variation scan in
`has_similar_failure` (note: a strict subset of `searchKeyTools` —
`search_gmail` gets a query-based key but no variation scan). -/
def variationScanTools : List String := ["search_catalogue", "search_drive_files"]

/-- The `for failed_key, reason in self.failed_patterns.items()` scan of
`has_similar_failure`: first entry for the same tool whose stored query is
a variation of `query` yields the synthesised reason. -/
def searchVariationScan (tool_name query : String) :
    List (String × String) → Option String
  | [] => none
  | (failed_key, reason) :: rest =>
    if (tool_name ++ ":").data.isPrefixOf failed_key.data then
      let failed_query := afterFirstColon failed_key
      if _is_search_variation query failed_query then
        some ("Similar search already failed: \x27" ++ failed_query ++ "\x27 → " ++ reason)
      else searchVariationScan tool_name query rest
    else searchVariationScan tool_name query rest

/-- `has_similar_failure`: exact pattern-key match first, then (for the two
variation-scan tools) the fuzzy scan over recorded failure fingerprints. -/
def has_similar_failure (m : ToolSessionMemory) (tool_name : String) (args : Args) :
    Option String :=
  let pattern_key := _get_pattern_key tool_name args
  match alistGet m.failed_patterns pattern_key with
  | some reason => some reason
  | none =>
    if tool_name ∈ variationScanTools then
      let query := pyStrip (pyLower (rawQuery args))
      searchVariationScan tool_name query m.failed_patterns
    else none

/-- `get_context_summary`: at most 5 failure lines then the last 3
successful calls, joined by newlines; empty when nothing was recorded. -/
def get_context_summary (m : ToolSessionMemory) : String :=
  if m.calls.isEmpty then ""
  else
    let failureParts :=
      if ¬ m.failed_patterns.isEmpty then
        "⚠️ FAILED OPERATIONS (do NOT retry):" ::
          (m.failed_patterns.take 5).map (fun pr =>
            "  - " ++ beforeFirstColon pr.1 ++ ": " ++ pr.2)
      else []
    let successes := m.calls.filter (·.success)
    let successParts :=
      if ¬ successes.isEmpty then
        "\n✅ SUCCESSFUL OPERATIONS:" ::
          (lastN 3 successes).map (fun c => "  - " ++ c.tool_name ++ ": worked")
      else []
    pyJoin "\n" (failureParts ++ successParts)

/-- `get_failure_count`: number of recorded unsuccessful calls of a tool. -/
def get_failure_count (m : ToolSessionMemory) (tool_name : String) : Nat :=
  (m.calls.filter (fun c => c.tool_name = tool_name ∧ c.success = false)).length

/-- `should_skip_tool`: circuit breaker at 3 recorded failures. -/
def should_skip_tool (m : ToolSessionMemory) (tool_name : String) : Bool × String :=
  let failure_count := m.get_failure_count tool_name
  if failure_count ≥ 3 then
    (true, "Tool \x27" ++ tool_name ++ "\x27 has failed " ++ toString failure_count ++
      " times this session")
  else (false, "")

/-- `clear`: wipe both the ledger and the failure-pattern index. -/
def clear (_m : ToolSessionMemory) : ToolSessionMemory := init

end ToolSessionMemory

/-! ## Chart-marker scanning (`re.findall` / `re.sub` on `CHART_FILE:([^\s]+)`)

`llm.py` collects `CHART_FILE:<path>` markers from tool results with
`re.findall(r'CHART_FILE:([^\s]+)', s)`; `telegram.py` extracts the same
markers from the outgoing answer and removes them with
`re.sub(r'CHART_FILE:[^\s]+\s*', '', s)`.  Both are embedded as left-to-right
non-overlapping scans, exactly as the `re` module performs them. -/

/-- The characters of the literal `CHART_FILE:` marker. -/
def markerChars : List Char := "CHART_FILE:".data

/-- `re.findall(r'CHART_FILE:([^\s]+)', s)`: at each position try the
marker followed by a maximal non-empty run of non-whitespace characters;
on success capture the run and resume after it, otherwise advance one
character.  `fuel` makes the recursion structural; every step consumes at
least one character, so any `fuel ≥ l.length` computes the scan to
completion (the wrapper passes exactly `l.length`). -/
def findChartsFuel : Nat → List Char → List String
  | 0, _ => []
  | fuel + 1, l =>
    if markerChars.isPrefixOf l then
      let rest := l.drop markerChars.length
      let tok := rest.takeWhile (fun c => ¬ pyWS c)
      if tok.isEmpty then
        match l with
        | [] => []
        | _ :: t => findChartsFuel fuel t
      else String.mk tok :: findChartsFuel fuel (rest.drop tok.length)
    else
      match l with
      | [] => []
      | _ :: t => findChartsFuel fuel t

/-- `re.findall(r'CHART_FILE:([^\s]+)', s)` on a string. -/
def findCharts (s : String) : List String := findChartsFuel s.data.length s.data

/-- `re.sub(r'CHART_FILE:[^\s]+\s*', '', s)`: the same scan, deleting each
match (marker, token and any following whitespace) and copying everything
else (same structural-fuel scheme as `findChartsFuel`). -/
def subChartsFuel : Nat → List Char → List Char
  | 0, l => l
  | fuel + 1, l =>
    if markerChars.isPrefixOf l then
      let rest := l.drop markerChars.length
      let tok := rest.takeWhile (fun c => ¬ pyWS c)
      if tok.isEmpty then
        match l with
        | [] => []
        | c :: t => c :: subChartsFuel fuel t
      else subChartsFuel fuel ((rest.drop tok.length).dropWhile pyWS)
    else
      match l with
      | [] => []
      | c :: t => c :: subChartsFuel fuel t

/-- `re.sub(r'CHART_FILE:[^\s]+\s*', '', s)` on a string. -/
def subCharts (s : String) : String := String.mk (subChartsFuel s.data.length s.data)

/-! ## `src/bot/telegram.py` — `send_conversational_response`

Modelled as the pure data transformation the transport performs on the
answer text: the (order-preserving, de-duplicated) list of chart paths it
hands to `send_photo`, and the text that remains for the chat messages
after the markers are removed and stripped.  (`os.path.exists`, the photo
upload itself and the chunk/voice presentation of the remaining text are
I/O; the artifact list below is exactly the list the transport iterates
over to render the charts.) -/

/-- Python's order-preserving de-duplication
`[x for x in l if not (x in seen or seen.add(x))]`. -/
def pyDedup : List String → List String :=
  go []
where
  /-- `seen`-set recursion. -/
  go (seen : List String) : List String → List String
    | [] => []
    | x :: t => if x ∈ seen then go seen t else x :: go (x :: seen) t

/-- `send_conversational_response(chat_id, response, ...)` as a pure
function: (chart paths handed to the transport, remaining rendered text). -/
def send_conversational_response (response : String) : List String × String :=
  if strContains response "CHART_FILE:" then
    let chart_matches := pyDedup (findCharts response)
    let stripped := pyStrip (subCharts response)
    (chart_matches, stripped)
  else ([], response)

/-! ## `src/agent/llm.py` — messages, the model interface and the loop -/

/-- One entry of a LangChain `tool_calls` list: `{'name': ..., 'args': ...,
'id': ...}`. -/
structure ToolCallRequest where
  name : String
  args : Args
  id : String
deriving DecidableEq

/-- The LangChain message kinds the loop builds (`SystemMessage`,
`HumanMessage`, `AIMessage` with its `tool_calls`, `ToolMessage`). -/
inductive Msg where
  | system (content : String)
  | human (content : String)
  | ai (content : String) (tool_calls : List ToolCallRequest)
  | tool (content : String) (tool_call_id : String)
deriving DecidableEq

/-- A model reply: `response.content` (flattened to text, as lines 357-363
do for list-shaped content) and `response.tool_calls`. -/
structure ModelReply where
  content : String
  tool_calls : List ToolCallRequest
deriving DecidableEq

/-- The LLM endpoint, as an oracle over the accumulated message sequence
(`llm_with_tools.invoke(messages)`). -/
abbrev Model := List Msg → ModelReply

/-- The bound tools: name plus the argument-mapping → text callable.
Tool-level exceptions are already converted to `"Error executing tool: ..."`
strings inside `llm.py`, so a tool is a total text function here. -/
abbrev Tools := List (String × (Args → String))

/-- `for tool in tools: if tool.name == tool_name: ... break` — first tool
with the requested name. -/
def findTool (tools : Tools) (tool_name : String) : Option (Args → String) :=
  (tools.find? (fun t => t.1 = tool_name)).map (·.2)

/-- The negative-outcome markers of the lexical success scan
(lines 322-325). -/
def negativeMarkers : List String :=
  ["❌", "error", "not found", "no items found", "no files found", "failed", "timeout", "503"]

/-- `tool_success`: no negative marker occurs in the lower-cased result. -/
def toolSuccess (result : String) : Bool :=
  ¬ negativeMarkers.any (fun x => strContains (pyLower result) x)

/-- The synthetic result used when a similar call already failed
(line 307). -/
def skipResultText (reason : String) : String :=
  "⚠️ SKIPPED (similar attempt already failed): " ++ reason ++ ". Try a different approach."

/-- Outcome of handling one requested tool call (lines 299-347): the
updated session memory and chart list, the `ToolMessage` appended, and
whether a tool was actually looked up and executed (`executed = false`
exactly on the skip branch). -/
structure ToolCallOutcome where
  session : ToolSessionMemory
  chart_files : List String
  message : Msg
  executed : Bool
deriving DecidableEq

/-- Handle one entry of `response.tool_calls`: consult
`has_similar_failure` first; on a hit synthesise a skipped result without
executing or recording; otherwise execute (or fall through to
`"Tool not found"`), classify success, harvest chart markers, and record
the call. -/
def processToolCall (tools : Tools) (session : ToolSessionMemory)
    (chart_files : List String) (tc : ToolCallRequest) : ToolCallOutcome :=
  match session.has_similar_failure tc.name tc.args with
  | some failure_reason =>
    { session := session
      chart_files := chart_files
      message := Msg.tool (skipResultText failure_reason) tc.id
      executed := false }
  | none =>
    match findTool tools tc.name with
    | none =>
      let tool_result := "Tool not found"
      { session := session.record_call tc.name tc.args tool_result false
        chart_files := chart_files
        message := Msg.tool tool_result tc.id
        executed := true }
    | some f =>
      let tool_result := f tc.args
      let tool_success := toolSuccess tool_result
      let chart_files' :=
        if strContains tool_result "CHART_FILE:" then chart_files ++ findCharts tool_result
        else chart_files
      { session := session.record_call tc.name tc.args tool_result tool_success
        chart_files := chart_files'
        message := Msg.tool tool_result tc.id
        executed := true }

/-- Sequentially handle a reply's tool calls, returning the final session
memory, chart list, and the `ToolMessage`s in request order. -/
def execToolCalls (tools : Tools) (session : ToolSessionMemory)
    (chart_files : List String) :
    List ToolCallRequest → ToolSessionMemory × List String × List Msg
  | [] => (session, chart_files, [])
  | tc :: rest =>
    let o := processToolCall tools session chart_files tc
    let (s', c', ms) := execToolCalls tools o.session o.chart_files rest
    (s', c', o.message :: ms)

/-- The `SESSION CONTEXT` suffix appended to the system message from the
second iteration on (lines 280-286), when the summary is non-empty. -/
def injectSessionContext (session : ToolSessionMemory) (messages : List Msg) : List Msg :=
  let session_context := session.get_context_summary
  if session_context ≠ "" then
    match messages with
    | Msg.system c :: rest =>
      Msg.system (c ++ "\n\nSESSION CONTEXT (Learn from previous attempts):\n" ++
        session_context ++ "\n\nDO NOT repeat failed operations. Use alternative approaches or inform the user.") :: rest
    | other => other
  else messages

/-- Result of the `while iteration < max_iterations` loop (lines 275-365):
final message sequence, session memory, chart list, the `final_response`
text (still `""` when the loop exhausted its budget on tool-call replies),
and the number of model invocations performed. -/
structure LoopResult where
  messages : List Msg
  session : ToolSessionMemory
  chart_files : List String
  final_response : String
  invocations : Nat
deriving DecidableEq

/-- `max_iterations = 15` (line 264). -/
def maxIterations : Nat := 15

/-- The tool-execution loop (`while iteration < max_iterations`,
lines 275-365).  `iteration` is the loop counter *before* the
`iteration += 1` at the top of the body, and `fuel` is
`max_iterations - iteration`, so the loop guard `iteration < max_iterations`
is exactly `fuel > 0` and the recursion is structural on `fuel`; the entry
point `runToolLoop` supplies `fuel = maxIterations`, `iteration = 0`.  The
model is invoked exactly once per iteration, after the
(second-iteration-onward) session-context injection. -/
def toolLoop (model : Model) (tools : Tools) :
    Nat → Nat → List Msg → ToolSessionMemory → List String → String → Nat → LoopResult
  | 0, _, messages, session, chart_files, final_response, invocations =>
    { messages := messages
      session := session
      chart_files := chart_files
      final_response := final_response
      invocations := invocations }
  | fuel + 1, iteration, messages, session, chart_files, final_response, invocations =>
    let iteration' := iteration + 1
    let messages :=
      if iteration' > 1 then injectSessionContext session messages else messages
    let response := model messages
    if ¬ response.tool_calls.isEmpty then
      let messages := messages ++ [Msg.ai response.content response.tool_calls]
      let sct := execToolCalls tools session chart_files response.tool_calls
      toolLoop model tools fuel iteration' (messages ++ sct.2.2)
        sct.1 sct.2.1 final_response (invocations + 1)
    else
      { messages := messages
        session := session
        chart_files := chart_files
        final_response := response.content
        invocations := invocations + 1 }

/-- Loop entry: iteration 0, `final_response = ""`, no charts, no prior
invocations (lines 263-275). -/
def runToolLoop (model : Model) (tools : Tools) (messages : List Msg)
    (session : ToolSessionMemory) : LoopResult :=
  toolLoop model tools maxIterations 0 messages session [] "" 0

/-- Lines 367-390: extract the `<thinking>...</thinking>` region from the
loop's `final_response` and apply the empty-answer fallbacks; returns
`(thinking_content, answer_content)` before chart handling. -/
def parseThinking (final_response : String) : String × String :=
  if final_response ≠ "" then
    let parsed :=
      match pyFind final_response "<thinking>", pyFind final_response "</thinking>" with
      | some thinking_start, some thinking_end =>
        (String.mk ((final_response.data.drop (thinking_start + 10)).take
            (thinking_end - (thinking_start + 10))),
         pyStrip (String.mk (final_response.data.drop (thinking_end + 11))))
      | _, _ => ("", final_response)
    if parsed.2 = "" then
      (parsed.1, if parsed.1 ≠ "" then parsed.1 else final_response)
    else parsed
  else ("", "")

/-- The two fixed fallback texts of lines 399 and 401. -/
def chartOnlyText : String := "Here\x27s the chart you requested."

/-- Line 401's apology fallback. -/
def apologyText : String :=
  "I apologize, but I couldn\x27t generate a response. Please try again."

/-- Post-processing of the loop's `final_response` (lines 367-401):
thinking extraction, then chart-marker prepending (lines 392-399), then
the apology fallback.  Returns `(thinking_content, answer_content)`. -/
def postProcess (final_response : String) (chart_files : List String) :
    String × String :=
  let tc_ac := parseThinking final_response
  if ¬ chart_files.isEmpty then
    let chart_markers := pyJoin " " (chart_files.map (fun path => "CHART_FILE:" ++ path))
    if tc_ac.2 ≠ "" then (tc_ac.1, chart_markers ++ "\n\n" ++ tc_ac.2)
    else (tc_ac.1, chart_markers ++ "\n\n" ++ chartOnlyText)
  else if tc_ac.2 = "" then
    (tc_ac.1, apologyText)
  else tc_ac

/-! ## `src/agent/llm.py` — `TelegramAgent` state and the full request -/

/-- The default `AgentConfig.system_prompt` of `llm.py` (lines 25-66),
transcribed byte for byte (including the trailing spaces on lines 1, 3, 37
and 41 of the literal). -/
def defaultSystemPrompt : String :=
  "You are a helpful AI assistant in a Telegram chat. \n" ++
  "Be concise and helpful. If you search the web, cite your sources with URLs at the end.\n" ++
  "Reply in plaintext format, do not use markdown format and only use linebreaks when necessary. \n" ++
  "If you receive a document like images, pdf files and etc. Return your findings in json format.\n" ++
  "Keep your answers short and simple.\n" ++
  "\n" ++
  "CRITICAL FILE HANDLING:\n" ++
  "When a user sends you a file (PDF, DOCX, etc.) WITH instructions in the same message:\n" ++
  "- The file is ALREADY uploaded and available to you\n" ++
  "- DO NOT ask the user to upload it again\n" ++
  "- DO NOT ask for the file name (you already have it)\n" ++
  "- USE the appropriate tool to process the file immediately\n" ++
  "- For PDFs with \"catalogue\" or \"save\": use save_catalogue tool\n" ++
  "- For DOCX with \"template\" or \"quotation\": use upload_and_set_quotation_template tool\n" ++
  "\n" ++
  "CRITICAL: FOLLOW USER INSTRUCTIONS PRECISELY:\n" ++
  "When user asks you to create a folder and save files inside:\n" ++
  "1. Use create_drive_folder to create the folder FIRST\n" ++
  "2. Then save files to that folder using the folder_name parameter\n" ++
  "3. DO NOT skip folder creation - if user says \"create folder X\", create it!\n" ++
  "4. When saving catalogues: use save_catalogue(catalogue_name=\"...\", folder_name=\"...\")\n" ++
  "5. Name files sensibly - don\x27t use redundant names\n" ++
  "\n" ++
  "CRITICAL: ERROR HANDLING AND EFFICIENCY:\n" ++
  "- If a tool returns an error (503, timeout, etc.), DO NOT immediately retry the SAME tool with SAME parameters\n" ++
  "- Tell the user about the error and suggest waiting a moment before trying again\n" ++
  "- Do NOT waste iterations retrying failed operations - give a clear response instead\n" ++
  "- If \"multiple documents found\", ask user to specify - don\x27t blindly try again\n" ++
  "- Be EFFICIENT: complete tasks in as FEW iterations as possible\n" ++
  "\n" ++
  "CRITICAL: LEARN FROM SESSION CONTEXT:\n" ++
  "- Check the SESSION CONTEXT section for operations that already failed\n" ++
  "- DO NOT retry operations that are marked as failed\n" ++
  "- If a search returned \"no items found\", don\x27t search for variations of the same term\n" ++
  "- Use alternative approaches instead of repeating failures\n" ++
  "\n" ++
  "You have access to Google tools (Gmail, Drive, Sheets). When the user asks about their Google account, \n" ++
  "USE the tools to get real data - don\x27t make things up.\n" ++
  "\n" ++
  "CRITICAL: You MUST process the user\x27s request step-by-step inside <thinking></thinking> tags before answering.\n" ++
  "Inside the tags, describe your thought process. \n"

/-- `AgentConfig` (the fields the control flow reads; `temperature` and
`max_tokens` only parametrise the HTTP client and are omitted). -/
structure AgentConfig where
  model : String := "gemini-3-flash-preview"
  enable_search : Bool := true
  enable_memory : Bool := true
  system_prompt : String := defaultSystemPrompt

/-- First literal of the conditional-thinking `str.replace` (line 203). -/
def thinkingReplaceTarget1 : String :=
  "CRITICAL: CHAIN OF THOUGHT\nYou MUST think before you speak. Every response must strictly follow this format:"

/-- Replacement text of the first `str.replace` (line 204). -/
def thinkingReplacement1 : String :=
  "For this simple request, reply directly without thinking tags."

/-- Second literal of the conditional-thinking `str.replace` (line 206);
it is replaced by the empty string. -/
def thinkingReplaceTarget2 : String :=
  "<thinking>\n1. Analyze the user\x27s request.\n2. Check if any tools (Gmail, Drive, Memory, etc.) are needed.\n3. Formulate the execution plan.\n4. Construct the final response.\n</thinking>"

/-- The complexity-gate predicate (line 199): very short stripped message,
or one of the four greeting tokens. -/
def is_simple_query (message : String) : Bool :=
  (pyStrip message).length < 10 ||
    pyStrip (pyLower message) ∈ (["hi", "hello", "hey", "start"] : List String)

/-- Assembly of `system_content` (lines 193-216): the conditional-thinking
rewrite for simple queries, then the persistent-profile context, then the
semantic-memory context. -/
def buildSystemContent (system_prompt message persistent_context memory_context : String) :
    String :=
  let system_content :=
    if is_simple_query message then
      pyReplace (pyReplace system_prompt thinkingReplaceTarget1 thinkingReplacement1)
        thinkingReplaceTarget2 ""
    else system_prompt
  let system_content :=
    if persistent_context ≠ "" then system_content ++ "\n\n" ++ persistent_context
    else system_content
  if memory_context ≠ "" then system_content ++ "\n\n" ++ memory_context
  else system_content

/-- The in-process per-user state of `TelegramAgent`: the conversation
dict and the tool-session dict (`current_file_context` carries no
orchestration logic and is omitted). -/
structure TelegramAgentState where
  config : AgentConfig
  conversations : List (Nat × List Msg)
  tool_sessions : List (Nat × ToolSessionMemory)

/-- A freshly constructed `TelegramAgent(config)`. -/
def TelegramAgentState.mkAgent (config : AgentConfig) : TelegramAgentState :=
  ⟨config, [], []⟩

/-- `get_history` (value semantics: the dict-entry initialisation it
performs on a miss only materialises the same empty list returned here). -/
def get_history (agent : TelegramAgentState) (user_id : Nat) : List Msg :=
  (alistGet agent.conversations user_id).getD []

/-- `add_to_history` (lines 106-113): append a `HumanMessage` or
`AIMessage` and truncate to the most recent 20 turns. -/
def add_to_history (agent : TelegramAgentState) (user_id : Nat) (role content : String) :
    TelegramAgentState :=
  let history := get_history agent user_id ++
    [if role = "user" then Msg.human content else Msg.ai content []]
  let history := if history.length > 20 then lastN 20 history else history
  { agent with conversations := alistInsert agent.conversations user_id history }

/-- `clear_tool_session` (lines 131-134).  NOTE: this method has **no call
site anywhere in the repository** — nothing ever invokes it (or
`ToolSessionMemory.clear`) after a run. -/
def clear_tool_session (agent : TelegramAgentState) (user_id : Nat) : TelegramAgentState :=
  match alistGet agent.tool_sessions user_id with
  | some s => { agent with tool_sessions := alistInsert agent.tool_sessions user_id s.clear }
  | none => agent

/-- Everything `generate_response_with_thinking` produces, with the loop
result and the session-memory instance the run *started* from exposed for
the specification. -/
structure GenerateResult where
  agent : TelegramAgentState
  thinking : String
  answer : String
  sessionAtStart : ToolSessionMemory
  loop : LoopResult

/-- `generate_response_with_thinking` (lines 153-411) for a text message.
External inputs are explicit: `model` is the LLM endpoint, `tools` the
per-user tool list (`_get_tools_for_user`), `memory_context` and
`persistent_context` the strings the vector store and profile store
contribute.  The persistent-memory trigger write
(`process_message_for_memory`) targets the external SQLite store and is
modelled separately by `detect_memory_triggers` below; the final
`memory_manager.add_conversation` write is likewise external. -/
def generate_response_with_thinking (agent : TelegramAgentState) (user_id : Nat)
    (message : String) (model : Model) (tools : Tools)
    (memory_context persistent_context : String) : GenerateResult :=
  let memory_context := if agent.config.enable_memory then memory_context else ""
  let system_content :=
    buildSystemContent agent.config.system_prompt message persistent_context memory_context
  let messages := Msg.system system_content :: (get_history agent user_id ++ [Msg.human message])
  -- lines 271-273: reuse (or create) the per-user ToolSessionMemory instance
  let agentSession :=
    match alistGet agent.tool_sessions user_id with
    | some s => (agent, s)
    | none =>
      ({ agent with
          tool_sessions := alistInsert agent.tool_sessions user_id ToolSessionMemory.init },
       ToolSessionMemory.init)
  let res := runToolLoop model tools messages agentSession.2
  let processed := postProcess res.final_response res.chart_files
  -- the Python instance is mutated in place during the loop; storing the
  -- loop's final session back models that aliasing
  let agent2 :=
    { agentSession.1 with
       tool_sessions := alistInsert agentSession.1.tool_sessions user_id res.session }
  let agent3 := add_to_history agent2 user_id "user" message
  let agent4 := add_to_history agent3 user_id "assistant" processed.2
  { agent := agent4
    thinking := processed.1
    answer := processed.2
    sessionAtStart := agentSession.2
    loop := res }

/-! ## `src/agent/persistent_memory.py` — trigger detection

`detect_memory_triggers` runs a fixed battery of `re.search` patterns over
the (lower-cased) inbound message.  Each pattern is embedded as a
position-wise matcher (`tryAt`-style function returning the captured group)
plus the generic left-to-right `re.search` scan; greedy/lazy quantifier and
alternation-with-backtracking semantics are spelled out per pattern. -/

/-- Python `\w` on the ASCII text these patterns see. -/
def isWordChar (c : Char) : Bool := c.isAlphanum || c = '_'

/-- The characters of the `[''`]` class used by several patterns (an ASCII
apostrophe, duplicated in the source, and a backtick). -/
def apostropheClass : List Char := ['\x27', '\x60']

/-- `re.search`: try the pattern matcher at every position, left to right
(also at the end-of-string position). -/
def reSearch (tryAt : List Char → Option String) : List Char → Option String
  | [] => tryAt []
  | c :: t =>
    match tryAt (c :: t) with
    | some r => some r
    | none => reSearch tryAt t

/-- Match a literal and return the remainder. -/
def dropLit (lit : String) (l : List Char) : Option (List Char) :=
  if lit.data.isPrefixOf l then some (l.drop lit.data.length) else none

/-- `r"my name is (\w+(?:\s+\w+)?)"` at one position: the literal, a
greedy word-character run, then — greedily, since nothing follows the
group — an optional whitespace run plus second word-character run. -/
def tryNamePat1 (l : List Char) : Option String :=
  (dropLit "my name is " l).bind fun rest =>
    let w1 := rest.takeWhile isWordChar
    if w1.isEmpty then none
    else
      let rest2 := rest.drop w1.length
      let sp := rest2.takeWhile pyWS
      let w2 := (rest2.drop sp.length).takeWhile isWordChar
      if ¬ sp.isEmpty ∧ ¬ w2.isEmpty then some (String.mk (w1 ++ sp ++ w2))
      else some (String.mk w1)

/-- `r"i[''`]m (\w+)(?:\s|,|\.)"` at one position: after the maximal
word run the next character must be whitespace, a comma or a period (the
`+` cannot backtrack into a successful terminator, so no search is
needed). -/
def tryNamePat2 (l : List Char) : Option String :=
  match l with
  | 'i' :: c :: 'm' :: ' ' :: rest =>
    if c ∈ apostropheClass then
      let w := rest.takeWhile isWordChar
      if w.isEmpty then none
      else
        match rest.drop w.length with
        | [] => none
        | d :: _ => if pyWS d || d = ',' || d = '.' then some (String.mk w) else none
    else none
  | _ => none

/-- `r"call me (\w+)"` at one position. -/
def tryNamePat3 (l : List Char) : Option String :=
  (dropLit "call me " l).bind fun rest =>
    let w := rest.takeWhile isWordChar
    if w.isEmpty then none else some (String.mk w)

/-- The `for pattern in patterns: ... break` loop: first pattern with a
search hit anywhere in the message wins. -/
def firstPatternMatch (pats : List (List Char → Option String)) (l : List Char) :
    Option String :=
  match pats with
  | [] => none
  | p :: rest =>
    match reSearch p l with
    | some r => some r
    | none => firstPatternMatch rest l

/-- `r"i work (?:at|for) ([^,.]+)"` at one position. -/
def tryCompanyPat1 (l : List Char) : Option String :=
  (dropLit "i work " l).bind fun rest =>
    let afterAlt :=
      match dropLit "at " rest with
      | some r => some r
      | none => dropLit "for " rest
    afterAlt.bind fun r2 =>
      let cap := r2.takeWhile (fun c => c ≠ ',' ∧ c ≠ '.')
      if cap.isEmpty then none else some (String.mk cap)

/-- Head character is a comma or period (`[,.]`). -/
def termCharHead : List Char → Bool
  | c :: _ => c = ',' || c = '.'
  | [] => false

/-- One alternative `\s+word` of the optional company suffix: a non-empty
greedy whitespace run then the literal. -/
def trySuffixVariant (word : String) (rest : List Char) : Option (List Char) :=
  let sp := rest.takeWhile pyWS
  if sp.isEmpty then none else dropLit word (rest.drop sp.length)

/-- Can `(?:\s+company|\s+inc|\s+ltd)?[,.]` match here?  Alternatives are
tried in source order, then the empty option. -/
def companyTailOk (rest : List Char) : Bool :=
  (match trySuffixVariant "company" rest with | some r => termCharHead r | none => false) ||
  (match trySuffixVariant "inc" rest with | some r => termCharHead r | none => false) ||
  (match trySuffixVariant "ltd" rest with | some r => termCharHead r | none => false) ||
  termCharHead rest

/-- The lazy capture `([^,.]+?)` of the second company pattern: grow the
group one `[^,.]` character at a time, testing the pattern tail before
each extension. -/
def companyLazyCapture (acc : List Char) : List Char → Option String
  | [] =>
    if ¬ acc.isEmpty ∧ companyTailOk [] then some (String.mk acc.reverse) else none
  | c :: t =>
    if ¬ acc.isEmpty ∧ companyTailOk (c :: t) then some (String.mk acc.reverse)
    else if c = ',' || c = '.' then none
    else companyLazyCapture (c :: acc) t

/-- `r"i[''`]m (?:at|from|with) ([^,.]+?)(?:\s+company|\s+inc|\s+ltd)?[,.]"`
at one position. -/
def tryCompanyPat2 (l : List Char) : Option String :=
  match l with
  | 'i' :: c :: 'm' :: ' ' :: rest =>
    if c ∈ apostropheClass then
      let afterAlt :=
        match dropLit "at " rest with
        | some r => some r
        | none =>
          match dropLit "from " rest with
          | some r => some r
          | none => dropLit "with " rest
      afterAlt.bind (companyLazyCapture [])
    else none
  | _ => none

/-- `r"my company is ([^,.]+)"` at one position. -/
def tryCompanyPat3 (l : List Char) : Option String :=
  (dropLit "my company is " l).bind fun rest =>
    let cap := rest.takeWhile (fun c => c ≠ ',' ∧ c ≠ '.')
    if cap.isEmpty then none else some (String.mk cap)

/-- The company `for` loop: the `break` sits inside the
`if len(company) > 2` guard, so a match that post-processes to 2 or fewer
characters falls through to the next pattern. -/
def companyScan (pats : List (List Char → Option String)) (msg : List Char) :
    Option String :=
  match pats with
  | [] => none
  | p :: rest =>
    match reSearch p msg with
    | some g =>
      let company := pyTitle (pyStrip g)
      if company.length > 2 then some company else companyScan rest msg
    | none => companyScan rest msg

/-- `[a-zA-Z0-9._%+-]` (the e-mail local part). -/
def emailLocalChar (c : Char) : Bool :=
  c.isAlphanum || c = '.' || c = '_' || c = '%' || c = '+' || c = '-'

/-- `[a-zA-Z0-9.-]` (the e-mail domain). -/
def emailDomainChar (c : Char) : Bool := c.isAlphanum || c = '.' || c = '-'

/-- Backtracking split of the greedy domain run for
`[a-zA-Z0-9.-]+\.[a-zA-Z]{2,}`: the rightmost `.` in the run followed by
at least two alphabetic characters, returning (chars before the dot,
maximal alphabetic run after it). -/
def emailSplitAux : List Char → Option (List Char × List Char)
  | [] => none
  | c :: t =>
    match emailSplitAux t with
    | some (a, b) => some (c :: a, b)
    | none =>
      if c = '.' then
        let run := t.takeWhile Char.isAlpha
        if run.length ≥ 2 then some ([], run) else none
      else none

/-- `r"my email is ([a-zA-Z0-9._%+-]+@[a-zA-Z0-9.-]+\.[a-zA-Z]{2,})"` at
one position (searched over the *original-case* message). -/
def tryEmailPat (l : List Char) : Option String :=
  (dropLit "my email is " l).bind fun rest =>
    let lp := rest.takeWhile emailLocalChar
    if lp.isEmpty then none
    else
      match rest.drop lp.length with
      | '@' :: r2 =>
        let dom := r2.takeWhile emailDomainChar
        match emailSplitAux dom with
        | some (a, b) =>
          if a.isEmpty then none
          else some (String.mk (lp ++ '@' :: (a ++ '.' :: b)))
        | none => none
      | _ => none

/-- `(.{lo,hi})` at the end of a pattern: `.` excludes newlines, the
greedy repetition takes up to `hi` characters and needs at least `lo`. -/
def dotCapture (lo hi : Nat) (rest : List Char) : Option String :=
  let cap := (rest.takeWhile (fun c => c ≠ '\n')).take hi
  if cap.length ≥ lo then some (String.mk cap) else none

/-- `(?:lit)?` before a continuation, with backtracking: try the literal
first, fall back to skipping it. -/
def withOptionalLit (lit : String) (k : List Char → Option String)
    (rest : List Char) : Option String :=
  match dropLit lit rest with
  | some r2 =>
    match k r2 with
    | some g => some g
    | none => k rest
  | none => k rest

/-- `r"remember (?:that )?(.{10,100})"` at one position. -/
def tryRememberPat1 (l : List Char) : Option String :=
  (dropLit "remember " l).bind (withOptionalLit "that " (dotCapture 10 100))

/-- `r"don[''`]t forget (?:that )?(.{10,100})"` at one position. -/
def tryRememberPat2 (l : List Char) : Option String :=
  match l with
  | 'd' :: 'o' :: 'n' :: c :: rest =>
    if c ∈ apostropheClass then
      (dropLit "t forget " rest).bind (withOptionalLit "that " (dotCapture 10 100))
    else none
  | _ => none

/-- `r"keep in mind (?:that )?(.{10,100})"` at one position. -/
def tryRememberPat3 (l : List Char) : Option String :=
  (dropLit "keep in mind " l).bind (withOptionalLit "that " (dotCapture 10 100))

/-- `r"note (?:that )?(.{10,100})"` at one position. -/
def tryRememberPat4 (l : List Char) : Option String :=
  (dropLit "note " l).bind (withOptionalLit "that " (dotCapture 10 100))

/-- `r"i (?:always |usually )?prefer (.{5,50})"` at one position, with
alternation-then-empty backtracking on the optional group. -/
def tryPrefPat1 (l : List Char) : Option String :=
  (dropLit "i " l).bind fun rest =>
    let tail := fun (r : List Char) => (dropLit "prefer " r).bind (dotCapture 5 50)
    match (dropLit "always " rest).bind tail with
    | some g => some g
    | none =>
      match (dropLit "usually " rest).bind tail with
      | some g => some g
      | none => tail rest

/-- `r"always (.{5,50})"` at one position. -/
def tryPrefPat2 (l : List Char) : Option String :=
  (dropLit "always " l).bind (dotCapture 5 50)

/-- `r"i like (?:to |when )?(.{5,50})"` at one position. -/
def tryPrefPat3 (l : List Char) : Option String :=
  (dropLit "i like " l).bind fun rest =>
    match (dropLit "to " rest).bind (dotCapture 5 50) with
    | some g => some g
    | none =>
      match (dropLit "when " rest).bind (dotCapture 5 50) with
      | some g => some g
      | none => dotCapture 5 50 rest

/-- The preference loop: first (pattern, key) pair with a search hit. -/
def prefScan (pats : List ((List Char → Option String) × String)) (msg : List Char) :
    Option (String × String) :=
  match pats with
  | [] => none
  | (p, key) :: rest =>
    match reSearch p msg with
    | some g => some (key, pyStrip g)
    | none => prefScan rest msg

/-- `detect_memory_triggers(message)`: the list of
`(category, key, value)` triples the detector emits, in source order
(name, company, e-mail, fact, preference). -/
def detect_memory_triggers (message : String) : List (String × String × String) :=
  let msg_lower := (pyLower message).data
  let nameT :=
    match firstPatternMatch [tryNamePat1, tryNamePat2, tryNamePat3] msg_lower with
    | some g => [("identity", "name", pyTitle (pyStrip g))]
    | none => []
  let companyT :=
    match companyScan [tryCompanyPat1, tryCompanyPat2, tryCompanyPat3] msg_lower with
    | some company => [("identity", "company", company)]
    | none => []
  let emailT :=
    match reSearch tryEmailPat message.data with
    | some em => [("identity", "email", em)]
    | none => []
  let factT :=
    match firstPatternMatch
        [tryRememberPat1, tryRememberPat2, tryRememberPat3, tryRememberPat4] msg_lower with
    | some g =>
      let fact := pyStrip g
      let key := String.mk ((pyJoin "_" ((pyWords fact).take 4)).data.take 30)
      [("fact", key, fact)]
    | none => []
  let prefT :=
    match prefScan [(tryPrefPat1, "preference"), (tryPrefPat2, "always"), (tryPrefPat3, "likes")]
        msg_lower with
    | some kv => [("preference", kv.1, kv.2)]
    | none => []
  nameT ++ companyT ++ emailT ++ factT ++ prefT

/-- One user's slice of the `user_persistent_memory` table:
`(category, key) → value`. -/
abbrev ProfileStore := List ((String × String) × String)

/-- `PersistentUserMemory.set_value` — the
`INSERT ... ON CONFLICT ... DO UPDATE` upsert. -/
def set_value (store : ProfileStore) (category key value : String) : ProfileStore :=
  alistInsert store (category, key) value

/-- `process_message_for_memory`: apply every detected trigger as an
upsert; returns the updated store and the `"category/key: value"`
descriptions. -/
def process_message_for_memory (store : ProfileStore) (message : String) :
    ProfileStore × List String :=
  let triggers := detect_memory_triggers message
  triggers.foldl
    (fun acc t =>
      (set_value acc.1 t.1 t.2.1 t.2.2, acc.2 ++ [t.1 ++ "/" ++ t.2.1 ++ ": " ++ t.2.2]))
    (store, [])

/-! ## Concrete fixtures used by the closed theorems

The counterexamples and witnesses below run the loop against small
concrete oracles.  The orchestration claims do not depend on the system
prompt's wording, so the fixture agent uses a short prompt to keep kernel
evaluation tractable. -/

/-- Fixture agent with a short system prompt. -/
def fixtureAgent : TelegramAgentState := .mkAgent { system_prompt := "sys" }

/-- A model that requests the same tool call on every invocation (its
reply text is always `"LAST"`). -/
def alwaysToolModel : Model :=
  fun _ => { content := "LAST", tool_calls := [⟨"t", [], "1"⟩] }

/-- A model that requests one failing catalogue search and then answers. -/
def oneSearchModel : Model := fun msgs =>
  if msgs.any (fun m => match m with | .tool _ _ => true | _ => false) then
    { content := "ok", tool_calls := [] }
  else
    { content := "", tool_calls := [⟨"search_catalogue", [("query", "blue widget")], "1"⟩] }

/-- A catalogue-search tool that always fails. -/
def failingSearchTools : Tools :=
  [("search_catalogue", fun _ => "No items found in any catalogue")]

/-- A model that requests one chart tool call and then answers with a text
crafted so that marker stripping re-assembles a marker from its
fragments. -/
def chartEchoModel : Model := fun msgs =>
  if msgs.any (fun m => match m with | .tool _ _ => true | _ => false) then
    { content := "CHART_CHART_FILE:q FILE:p", tool_calls := [] }
  else
    { content := "", tool_calls := [⟨"mk_chart", [], "1"⟩] }

/-- A model that requests one chart tool call and then answers plainly. -/
def chartPlainModel : Model := fun msgs =>
  if msgs.any (fun m => match m with | .tool _ _ => true | _ => false) then
    { content := "Done", tool_calls := [] }
  else
    { content := "", tool_calls := [⟨"mk_chart", [], "1"⟩] }

/-- A chart tool emitting one `CHART_FILE:` marker. -/
def chartTools : Tools := [("mk_chart", fun _ => "CHART_FILE:p done")]

/-- An 80-character inbound message with no greeting token. -/
def eightyCharMessage : String :=
  "Please compile the quarterly revenue figures for all regional teams before noon."

/-- `countStr x l`: number of occurrences of `x` in `l`. -/
def countStr (x : String) (l : List String) : Nat :=
  (l.filter (fun y => y = x)).length

/-- Well-formedness of a chart path: non-empty and whitespace-free (what
`[^\s]+` guarantees for every captured token). -/
def chartPathWF (p : String) : Prop := p.data ≠ [] ∧ ∀ c ∈ p.data, pyWS c = false

/-- Either empty or starting with a whitespace character (the shape of
everything that follows a marker token inside the built answer). -/
def headWSorNil (rest : List Char) : Prop :=
  rest = [] ∨ ∃ c t, rest = c :: t ∧ pyWS c = true

/-- The character rendering of
`pyJoin " " (ps.map (fun p => "CHART_FILE:" ++ p))`, in a shape convenient
for induction. -/
def markersData : List String → List Char
  | [] => []
  | [p] => markerChars ++ p.data
  | p :: q :: t => markerChars ++ p.data ++ (' ' :: markersData (q :: t))

/-! ## Helper lemmas: substring containment -/

theorem strMk_data (s : String) : String.mk s.data = s := rfl

theorem containsSub_nil (l : List Char) : containsSub [] l = true := by
  cases l <;> simp [containsSub, List.isPrefixOf]

theorem containsSub_of_isPrefixOf {needle l : List Char}
    (h : needle.isPrefixOf l = true) : containsSub needle l = true := by
  cases l with
  | nil =>
    cases needle with
    | nil => simp [containsSub]
    | cons c t => simp [List.isPrefixOf] at h
  | cons c t => simp [containsSub, h]

theorem containsSub_append_left {needle l₁ : List Char} (l₂ : List Char)
    (h : containsSub needle l₁ = true) : containsSub needle (l₁ ++ l₂) = true := by
  induction l₁ with
  | nil =>
    simp [containsSub, List.isEmpty_iff] at h
    subst h
    exact containsSub_nil l₂
  | cons c t ih =>
    simp only [containsSub, Bool.or_eq_true] at h
    rcases h with h | h
    · have hp : needle <+: (c :: t) := List.isPrefixOf_iff_prefix.mp h
      have hp' : needle <+: (c :: t) ++ l₂ := hp.trans (List.prefix_append _ _)
      simp only [List.cons_append, containsSub, Bool.or_eq_true]
      exact Or.inl (List.isPrefixOf_iff_prefix.mpr hp')
    · simp only [List.cons_append, containsSub, Bool.or_eq_true]
      exact Or.inr (ih h)

theorem containsSub_append_right {needle l₂ : List Char} (l₁ : List Char)
    (h : containsSub needle l₂ = true) : containsSub needle (l₁ ++ l₂) = true := by
  induction l₁ with
  | nil => simpa using h
  | cons c t ih =>
    simp only [List.cons_append, containsSub, Bool.or_eq_true]
    exact Or.inr ih

theorem containsSub_needle_prefix {n₁ n₂ l : List Char}
    (h : containsSub (n₁ ++ n₂) l = true) : containsSub n₁ l = true := by
  induction l with
  | nil =>
    simp [containsSub, List.isEmpty_iff, List.append_eq_nil] at h ⊢
    exact h.1
  | cons c t ih =>
    simp only [containsSub, Bool.or_eq_true] at h ⊢
    rcases h with h | h
    · have hp : (n₁ ++ n₂) <+: (c :: t) := List.isPrefixOf_iff_prefix.mp h
      have hp' : n₁ <+: (c :: t) := (List.prefix_append n₁ n₂).trans hp
      exact Or.inl (List.isPrefixOf_iff_prefix.mpr hp')
    · exact Or.inr (ih h)

theorem containsSub_take {needle l : List Char} (k : Nat)
    (h : containsSub needle (l.take k) = true) : containsSub needle l = true := by
  have := @containsSub_append_left needle (l.take k) (l.drop k) h
  rwa [List.take_append_drop] at this

theorem containsSub_drop {needle l : List Char} (k : Nat)
    (h : containsSub needle (l.drop k) = true) : containsSub needle l = true := by
  have := @containsSub_append_right needle (l.drop k) (l.take k) h
  rwa [List.take_append_drop] at this

theorem containsSub_dropWhile {needle l : List Char} (p : Char → Bool)
    (h : containsSub needle (l.dropWhile p) = true) : containsSub needle l = true := by
  have := @containsSub_append_right needle (l.dropWhile p) (l.takeWhile p) h
  rwa [List.takeWhile_append_dropWhile] at this

theorem containsSub_pyStripChars {needle l : List Char}
    (h : containsSub needle (pyStripChars l) = true) : containsSub needle l = true := by
  unfold pyStripChars at h
  set d := l.dropWhile pyWS with hd
  have hdecomp : d = ((d.reverse.dropWhile pyWS).reverse : List Char) ++
      (d.reverse.takeWhile pyWS).reverse := by
    have h1 : d.reverse.takeWhile pyWS ++ d.reverse.dropWhile pyWS = d.reverse :=
      List.takeWhile_append_dropWhile (p := pyWS) (l := d.reverse)
    calc d = d.reverse.reverse := by simp
      _ = (d.reverse.takeWhile pyWS ++ d.reverse.dropWhile pyWS).reverse := by rw [h1]
      _ = (d.reverse.dropWhile pyWS).reverse ++ (d.reverse.takeWhile pyWS).reverse := by
          rw [List.reverse_append]
  have h2 : containsSub needle d = true := by
    rw [hdecomp]
    exact containsSub_append_left _ h
  exact containsSub_dropWhile pyWS (hd ▸ h2)

/-! ## Helper lemmas: association lists and prefixes -/

theorem alistGet_insert_self {κ α : Type} [DecidableEq κ]
    (d : List (κ × α)) (k : κ) (v : α) : alistGet (alistInsert d k v) k = some v := by
  induction d with
  | nil => simp [alistInsert, alistGet, List.find?]
  | cons hd t ih =>
    by_cases h : hd.1 = k
    · simp [alistInsert, h, alistGet, List.find?]
    · simpa [alistInsert, h, alistGet, List.find?] using ih

theorem alistInsert_mem_self {κ α : Type} [DecidableEq κ]
    (d : List (κ × α)) (k : κ) (v : α) : (k, v) ∈ alistInsert d k v := by
  induction d with
  | nil => simp [alistInsert]
  | cons hd t ih =>
    by_cases h : hd.1 = k
    · simp [alistInsert, h]
    · simp only [alistInsert, if_neg h, List.mem_cons]
      exact Or.inr ih

theorem isPrefixOf_append_self (n m : List Char) : n.isPrefixOf (n ++ m) = true :=
  List.isPrefixOf_iff_prefix.mpr (List.prefix_append n m)

theorem takeWhile_all_append {p : Char → Bool} {l rest : List Char}
    (hall : ∀ c ∈ l, p c = true)
    (hrest : rest = [] ∨ ∃ c t, rest = c :: t ∧ p c = false) :
    (l ++ rest).takeWhile p = l := by
  induction l with
  | nil =>
    rcases hrest with h | ⟨c, t, hr, hc⟩
    · simp [h]
    · simp [hr, List.takeWhile_cons, hc]
  | cons a l' ih =>
    have ha : p a = true := hall a (List.mem_cons_self a l')
    simp only [List.cons_append, List.takeWhile_cons, ha, if_true]
    rw [ih (fun c hc => hall c (List.mem_cons_of_mem a hc))]

theorem dropWhile_all_append {p : Char → Bool} {l rest : List Char}
    (hall : ∀ c ∈ l, p c = true) :
    (l ++ rest).dropWhile p = rest.dropWhile p := by
  induction l with
  | nil => simp
  | cons a l' ih =>
    have ha : p a = true := hall a (List.mem_cons_self a l')
    simp only [List.cons_append, List.dropWhile_cons, ha, if_true]
    exact ih (fun c hc => hall c (List.mem_cons_of_mem a hc))

theorem afterFirstColon_append {pre rest : List Char}
    (h : ∀ c ∈ pre, c ≠ ':') :
    afterFirstColon (String.mk (pre ++ ':' :: rest)) = String.mk rest := by
  unfold afterFirstColon
  rw [dropWhile_all_append (by intro c hc; simpa using h c hc)]
  simp [List.dropWhile_cons]

/-! ## Helper lemmas: Tool Session Memory -/

namespace ToolSessionMemory

theorem record_call_failed_patterns (m : ToolSessionMemory) (t : String) (a : Args)
    (res : String) :
    (m.record_call t a res false).failed_patterns =
      alistInsert m.failed_patterns (_get_pattern_key t a) (_extract_failure_reason res) := by
  simp [record_call]

theorem record_call_calls (m : ToolSessionMemory) (t : String) (a : Args)
    (res : String) (success : Bool) :
    (m.record_call t a res success).calls = m.calls ++ [⟨t, a, res, success⟩] := by
  unfold record_call
  split <;> rfl

theorem has_similar_failure_exact {m : ToolSessionMemory} {t : String} {a : Args} {r : String}
    (h : alistGet m.failed_patterns (_get_pattern_key t a) = some r) :
    m.has_similar_failure t a = some r := by
  simp only [has_similar_failure, h]

theorem has_similar_failure_none_eq {m : ToolSessionMemory} {t : String} {a : Args}
    (h : alistGet m.failed_patterns (_get_pattern_key t a) = none) :
    m.has_similar_failure t a =
      (if t ∈ variationScanTools then
        searchVariationScan t (pyStrip (pyLower (rawQuery a))) m.failed_patterns
       else none) := by
  simp only [has_similar_failure, h]

theorem searchVariationScan_isSome {t q fk rv : String} {d : List (String × String)}
    (hmem : (fk, rv) ∈ d)
    (hpre : (t ++ ":").data.isPrefixOf fk.data = true)
    (hvar : _is_search_variation q (afterFirstColon fk) = true) :
    (searchVariationScan t q d).isSome = true := by
  induction d with
  | nil => cases hmem
  | cons hd tail ih =>
    rcases hd with ⟨fk', rv'⟩
    unfold searchVariationScan
    by_cases hp : (t ++ ":").data.isPrefixOf fk'.data = true
    · simp only [hp, if_true]
      by_cases hv : _is_search_variation q (afterFirstColon fk') = true
      · simp [hv]
      · simp only [hv, Bool.false_eq_true, if_false]
        rcases List.mem_cons.mp hmem with heq | hmem'
        · exfalso
          have : fk' = fk := (congrArg Prod.fst heq).symm
          rw [this] at hv
          exact hv hvar
        · exact ih hmem'
    · simp only [Bool.not_eq_true] at hp
      simp only [hp, Bool.false_eq_true, if_false]
      rcases List.mem_cons.mp hmem with heq | hmem'
      · exfalso
        have : fk' = fk := (congrArg Prod.fst heq).symm
        rw [this] at hp
        rw [hpre] at hp
        exact Bool.true_eq_false.mp hp
      · exact ih hmem'

theorem variation_of_subset {q1 q2 : String}
    (h1 : variationTokens q1 ≠ [])
    (h2 : ToolSessionMemory.tokenSubset (variationTokens q1) (variationTokens q2) = true) :
    _is_search_variation q2 q1 = true := by
  have hb2 : (variationTokens q1).isEmpty = false := by
    simp [List.isEmpty_iff, h1]
  have hb1 : (variationTokens q2).isEmpty = false := by
    rcases List.exists_mem_of_ne_nil _ h1 with ⟨x, hx⟩
    have hx2 : x ∈ variationTokens q2 := by
      have := (List.all_eq_true.mp h2) x hx
      simpa using this
    simp [List.isEmpty_iff]
    exact List.ne_nil_of_mem hx2
  simp [_is_search_variation, hb1, hb2, h2]

end ToolSessionMemory

/-! ## Helper lemmas: the loop -/

theorem processToolCall_skip {tools : Tools} {session : ToolSessionMemory}
    {chart_files : List String} {tc : ToolCallRequest} {r : String}
    (h : session.has_similar_failure tc.name tc.args = some r) :
    processToolCall tools session chart_files tc =
      ⟨session, chart_files, Msg.tool (skipResultText r) tc.id, false⟩ := by
  unfold processToolCall
  rw [h]

theorem toolLoop_invocations_le (model : Model) (tools : Tools) :
    ∀ (fuel iteration : Nat) (messages : List Msg) (session : ToolSessionMemory)
      (chart_files : List String) (final_response : String) (invocations : Nat),
      (toolLoop model tools fuel iteration messages session chart_files
          final_response invocations).invocations ≤ invocations + fuel := by
  intro fuel
  induction fuel with
  | zero => intro it msgs sess ch fr inv; simp [toolLoop]
  | succ n ih =>
    intro it msgs sess ch fr inv
    unfold toolLoop
    set M := (if it + 1 > 1 then injectSessionContext sess msgs else msgs) with hM
    by_cases hb : (model M).tool_calls.isEmpty
    · rw [if_neg (not_not_intro hb)]
      simp only
      omega
    · rw [if_pos hb]
      exact le_trans (ih _ _ _ _ _ _) (by omega)

theorem toolLoop_all_tool_calls (model : Model) (tools : Tools)
    (h : ∀ msgs, (model msgs).tool_calls ≠ []) :
    ∀ (fuel iteration : Nat) (messages : List Msg) (session : ToolSessionMemory)
      (chart_files : List String) (final_response : String) (invocations : Nat),
      (toolLoop model tools fuel iteration messages session chart_files
          final_response invocations).final_response = final_response ∧
      (toolLoop model tools fuel iteration messages session chart_files
          final_response invocations).invocations = invocations + fuel := by
  intro fuel
  induction fuel with
  | zero => intro it msgs sess ch fr inv; simp [toolLoop]
  | succ n ih =>
    intro it msgs sess ch fr inv
    unfold toolLoop
    set M := (if it + 1 > 1 then injectSessionContext sess msgs else msgs) with hM
    have hne : ¬ (model M).tool_calls.isEmpty := by
      simp [List.isEmpty_iff, h]
    rw [if_pos hne]
    refine ⟨(ih _ _ _ _ _ _).1, ?_⟩
    rw [(ih _ _ _ _ _ _).2]
    omega

/-! ## Helper lemmas: chart-marker scanning -/

theorem findChartsFuel_shape :
    ∀ (fuel : Nat) (l : List Char) (p : String),
      p ∈ findChartsFuel fuel l → chartPathWF p := by
  intro fuel
  induction fuel with
  | zero => intro l p hp; simp [findChartsFuel] at hp
  | succ n ih =>
    intro l p hp
    unfold findChartsFuel at hp
    by_cases hpre : markerChars.isPrefixOf l
    · rw [if_pos hpre] at hp
      set rest := l.drop markerChars.length with hrest
      set tok := rest.takeWhile (fun c => ¬ pyWS c) with htok
      by_cases hemp : tok.isEmpty
      · rw [if_pos hemp] at hp
        cases l with
        | nil => simp at hp
        | cons c t => exact ih t p hp
      · rw [if_neg hemp] at hp
        rcases List.mem_cons.mp hp with heq | hmem
        · subst heq
          have htokne : ¬ (tok = []) := fun hh => hemp (by simp [hh])
          constructor
          · exact htokne
          · intro c hc
            have := List.mem_takeWhile_imp (htok ▸ hc)
            simpa using this
        · exact ih _ p hmem
    · rw [if_neg hpre] at hp
      cases l with
      | nil => simp at hp
      | cons c t => exact ih t p hp

theorem findChartsFuel_no_marker :
    ∀ (fuel : Nat) (l : List Char), containsSub markerChars l = false →
      findChartsFuel fuel l = [] := by
  intro fuel
  induction fuel with
  | zero => intro l _; simp [findChartsFuel]
  | succ n ih =>
    intro l hnc
    unfold findChartsFuel
    cases l with
    | nil => simp
    | cons c t =>
      simp only [containsSub, Bool.or_eq_false_iff] at hnc
      rw [if_neg (by simp [hnc.1])]
      exact ih t hnc.2

theorem subChartsFuel_no_marker :
    ∀ (fuel : Nat) (l : List Char), containsSub markerChars l = false →
      subChartsFuel fuel l = l := by
  intro fuel
  induction fuel with
  | zero => intro l _; simp [subChartsFuel]
  | succ n ih =>
    intro l hnc
    unfold subChartsFuel
    cases l with
    | nil => simp
    | cons c t =>
      simp only [containsSub, Bool.or_eq_false_iff] at hnc
      rw [if_neg (by simp [hnc.1])]
      show c :: subChartsFuel n t = c :: t
      rw [ih t hnc.2]

theorem findChartsFuel_step (fuel : Nat) (p rest : List Char) (hp : p ≠ [])
    (hall : ∀ c ∈ p, pyWS c = false) (hws : headWSorNil rest) :
    findChartsFuel (fuel + 1) (markerChars ++ p ++ rest) =
      String.mk p :: findChartsFuel fuel rest := by
  have hassoc : markerChars ++ p ++ rest = markerChars ++ (p ++ rest) :=
    List.append_assoc _ _ _
  have hdrop : (markerChars ++ (p ++ rest)).drop markerChars.length = p ++ rest :=
    List.drop_left _ _
  have htw : (p ++ rest).takeWhile (fun c => ¬ pyWS c) = p := by
    refine takeWhile_all_append (fun c hc => by simp [hall c hc]) ?_
    rcases hws with h | ⟨c, t, hr, hc⟩
    · exact Or.inl h
    · exact Or.inr ⟨c, t, hr, by simp [hc]⟩
  have hdrop2 : (p ++ rest).drop p.length = rest := List.drop_left _ _
  rw [hassoc]
  conv_lhs => unfold findChartsFuel
  rw [if_pos (isPrefixOf_append_self markerChars (p ++ rest))]
  dsimp only
  rw [hdrop, htw]
  rw [if_neg (by simp [List.isEmpty_iff, hp])]
  rw [hdrop2]

theorem subChartsFuel_step (fuel : Nat) (p rest : List Char) (hp : p ≠ [])
    (hall : ∀ c ∈ p, pyWS c = false) (hws : headWSorNil rest) :
    subChartsFuel (fuel + 1) (markerChars ++ p ++ rest) =
      subChartsFuel fuel (rest.dropWhile pyWS) := by
  have hassoc : markerChars ++ p ++ rest = markerChars ++ (p ++ rest) :=
    List.append_assoc _ _ _
  have hdrop : (markerChars ++ (p ++ rest)).drop markerChars.length = p ++ rest :=
    List.drop_left _ _
  have htw : (p ++ rest).takeWhile (fun c => ¬ pyWS c) = p := by
    refine takeWhile_all_append (fun c hc => by simp [hall c hc]) ?_
    rcases hws with h | ⟨c, t, hr, hc⟩
    · exact Or.inl h
    · exact Or.inr ⟨c, t, hr, by simp [hc]⟩
  have hdrop2 : (p ++ rest).drop p.length = rest := List.drop_left _ _
  rw [hassoc]
  conv_lhs => unfold subChartsFuel
  rw [if_pos (isPrefixOf_append_self markerChars (p ++ rest))]
  dsimp only
  rw [hdrop, htw]
  rw [if_neg (by simp [List.isEmpty_iff, hp])]
  rw [hdrop2]

theorem marker_isPrefixOf_ws_false {c : Char} (hc : pyWS c = true) (t : List Char) :
    markerChars.isPrefixOf (c :: t) = false := by
  by_cases h : c = 'C'
  · subst h
    exact absurd hc (by decide)
  · have hm : markerChars = 'C' :: "HART_FILE:".data := rfl
    rw [hm]
    show (('C' == c) && ("HART_FILE:".data.isPrefixOf t)) = false
    have : ('C' == c) = false := by
      simp only [beq_eq_false_iff_ne, ne_eq]
      exact fun hh => h hh.symm
    simp [this]

theorem containsSub_ws_cons {c : Char} {t : List Char} (hc : pyWS c = true)
    (h : containsSub markerChars t = false) :
    containsSub markerChars (c :: t) = false := by
  simp [containsSub, marker_isPrefixOf_ws_false hc, h]

theorem findChartsFuel_advance {fuel : Nat} {c : Char} {t : List Char}
    (h : markerChars.isPrefixOf (c :: t) = false) :
    findChartsFuel (fuel + 1) (c :: t) = findChartsFuel fuel t := by
  conv_lhs => unfold findChartsFuel
  rw [if_neg (by simp [h])]

theorem markersData_cons (q : String) (t : List String) :
    ∃ X, markersData (q :: t) = markerChars ++ X := by
  cases t with
  | nil => exact ⟨q.data, rfl⟩
  | cons r t' =>
    refine ⟨q.data ++ (' ' :: markersData (r :: t')), ?_⟩
    show markerChars ++ q.data ++ (' ' :: markersData (r :: t')) = _
    rw [List.append_assoc]

theorem containsSub_dropWhile_false {needle l : List Char} {p : Char → Bool}
    (h : containsSub needle l = false) :
    containsSub needle (l.dropWhile p) = false := by
  cases hh : containsSub needle (l.dropWhile p) with
  | false => rfl
  | true =>
    have := containsSub_dropWhile p hh
    rw [h] at this
    exact absurd this (by simp)

theorem findCharts_chain :
    ∀ (ps : List String) (ans : List Char) (fuel : Nat),
      (∀ p ∈ ps, chartPathWF p) →
      containsSub markerChars ans = false →
      ps ≠ [] →
      (markersData ps ++ '\n' :: '\n' :: ans).length ≤ fuel →
      findChartsFuel fuel (markersData ps ++ '\n' :: '\n' :: ans) = ps := by
  intro ps
  induction ps with
  | nil => intro ans fuel _ _ hne _; exact absurd rfl hne
  | cons p rest ih =>
    intro ans fuel hwf hans _ hfuel
    have hpwf : chartPathWF p := hwf p (List.mem_cons_self p rest)
    cases rest with
    | nil =>
      have hlen : (markersData [p] ++ '\n' :: '\n' :: ans).length =
          11 + p.data.length + 2 + ans.length := by
        simp [markersData, markerChars]
        omega
      cases fuel with
      | zero => omega
      | succ f =>
        show findChartsFuel (f + 1) (markerChars ++ p.data ++ ('\n' :: '\n' :: ans)) = [p]
        rw [findChartsFuel_step f p.data ('\n' :: '\n' :: ans) hpwf.1 hpwf.2
          (Or.inr ⟨'\n', '\n' :: ans, rfl, by decide⟩)]
        rw [strMk_data]
        have hnc : containsSub markerChars ('\n' :: '\n' :: ans) = false :=
          containsSub_ws_cons (by decide) (containsSub_ws_cons (by decide) hans)
        rw [findChartsFuel_no_marker f _ hnc]
    | cons q t =>
      rcases markersData_cons q t with ⟨X, hX⟩
      have hM : markersData (p :: q :: t) ++ '\n' :: '\n' :: ans =
          markerChars ++ p.data ++
            (' ' :: (markersData (q :: t) ++ '\n' :: '\n' :: ans)) := by
        show (markerChars ++ p.data ++ (' ' :: markersData (q :: t))) ++ _ = _
        rw [List.append_assoc (markerChars ++ p.data)]
        rfl
      rw [hM] at hfuel ⊢
      have hlen2 : (markerChars ++ p.data ++
          (' ' :: (markersData (q :: t) ++ '\n' :: '\n' :: ans))).length =
          11 + p.data.length + 1 + (markersData (q :: t) ++ '\n' :: '\n' :: ans).length := by
        simp [markerChars]
        omega
      cases fuel with
      | zero => omega
      | succ f =>
        rw [findChartsFuel_step f p.data _ hpwf.1 hpwf.2
          (Or.inr ⟨' ', _, rfl, by decide⟩)]
        rw [strMk_data]
        cases f with
        | zero => omega
        | succ f' =>
          rw [findChartsFuel_advance (marker_isPrefixOf_ws_false (by decide) _)]
          rw [ih ans f' (fun x hx => hwf x (List.mem_cons_of_mem p hx)) hans
            (by simp) (by omega)]

theorem subCharts_chain :
    ∀ (ps : List String) (ans : List Char) (fuel : Nat),
      (∀ p ∈ ps, chartPathWF p) →
      containsSub markerChars ans = false →
      ps ≠ [] →
      (markersData ps ++ '\n' :: '\n' :: ans).length ≤ fuel →
      subChartsFuel fuel (markersData ps ++ '\n' :: '\n' :: ans) =
        ans.dropWhile pyWS := by
  intro ps
  induction ps with
  | nil => intro ans fuel _ _ hne _; exact absurd rfl hne
  | cons p rest ih =>
    intro ans fuel hwf hans _ hfuel
    have hpwf : chartPathWF p := hwf p (List.mem_cons_self p rest)
    cases rest with
    | nil =>
      have hlen : (markersData [p] ++ '\n' :: '\n' :: ans).length =
          11 + p.data.length + 2 + ans.length := by
        simp [markersData, markerChars]
        omega
      cases fuel with
      | zero => omega
      | succ f =>
        show subChartsFuel (f + 1) (markerChars ++ p.data ++ ('\n' :: '\n' :: ans)) = _
        rw [subChartsFuel_step f p.data ('\n' :: '\n' :: ans) hpwf.1 hpwf.2
          (Or.inr ⟨'\n', '\n' :: ans, rfl, by decide⟩)]
        have hdw : ('\n' :: '\n' :: ans).dropWhile pyWS = ans.dropWhile pyWS := by
          rw [List.dropWhile_cons, if_pos (by decide), List.dropWhile_cons, if_pos (by decide)]
        rw [hdw]
        have hnc : containsSub markerChars (ans.dropWhile pyWS) = false :=
          containsSub_dropWhile_false hans
        rw [subChartsFuel_no_marker f _ hnc]
    | cons q t =>
      rcases markersData_cons q t with ⟨X, hX⟩
      have hM : markersData (p :: q :: t) ++ '\n' :: '\n' :: ans =
          markerChars ++ p.data ++
            (' ' :: (markersData (q :: t) ++ '\n' :: '\n' :: ans)) := by
        show (markerChars ++ p.data ++ (' ' :: markersData (q :: t))) ++ _ = _
        rw [List.append_assoc (markerChars ++ p.data)]
        rfl
      rw [hM] at hfuel ⊢
      have hlen2 : (markerChars ++ p.data ++
          (' ' :: (markersData (q :: t) ++ '\n' :: '\n' :: ans))).length =
          11 + p.data.length + 1 + (markersData (q :: t) ++ '\n' :: '\n' :: ans).length := by
        simp [markerChars]
        omega
      cases fuel with
      | zero => omega
      | succ f =>
        rw [subChartsFuel_step f p.data _ hpwf.1 hpwf.2
          (Or.inr ⟨' ', _, rfl, by decide⟩)]
        have hdw : (' ' :: (markersData (q :: t) ++ '\n' :: '\n' :: ans)).dropWhile pyWS =
            markersData (q :: t) ++ '\n' :: '\n' :: ans := by
          rw [List.dropWhile_cons]
          rw [if_pos (by decide)]
          rw [hX]
          show (markerChars ++ X) ++ _ = _
          rw [List.append_assoc]
        rw [hdw]
        exact ih ans f (fun x hx => hwf x (List.mem_cons_of_mem p hx)) hans
          (by simp) (by omega)

theorem join_markers_data (ps : List String) :
    (pyJoin " " (ps.map (fun p => "CHART_FILE:" ++ p))).data = markersData ps := by
  induction ps with
  | nil => simp [pyJoin, markersData]
  | cons p rest ih =>
    cases rest with
    | nil => simp [pyJoin, markersData, String.data_append]; rfl
    | cons q t =>
      show (("CHART_FILE:" ++ p) ++ " " ++
        pyJoin " " ((q :: t).map (fun x => "CHART_FILE:" ++ x))).data = _
      rw [String.data_append, String.data_append, ih]
      show markerChars ++ p.data ++ [' '] ++ markersData (q :: t) =
        markerChars ++ p.data ++ (' ' :: markersData (q :: t))
      simp

/-! ## Helper lemmas: de-duplication counts -/

theorem pyDedup_go_count_of_seen {x : String} {seen : List String}
    (hx : x ∈ seen) : ∀ l, countStr x (pyDedup.go seen l) = 0 := by
  intro l
  induction l generalizing seen with
  | nil => simp [pyDedup.go, countStr]
  | cons y t ih =>
    unfold pyDedup.go
    by_cases hy : y ∈ seen
    · rw [if_pos hy]
      exact ih hx
    · rw [if_neg hy]
      have hxy : ¬ (y = x) := fun hh => hy (hh ▸ hx)
      simp only [countStr, List.filter_cons]
      rw [if_neg (by simp [hxy])]
      exact ih (List.mem_cons_of_mem y hx)

theorem pyDedup_go_count_of_mem {x : String} :
    ∀ (l : List String) (seen : List String), x ∉ seen → x ∈ l →
      countStr x (pyDedup.go seen l) = 1 := by
  intro l
  induction l with
  | nil => intro seen _ hx; cases hx
  | cons y t ih =>
    intro seen hseen hx
    unfold pyDedup.go
    by_cases hy : y ∈ seen
    · rw [if_pos hy]
      have hxy : x ≠ y := fun hh => hseen (hh ▸ hy)
      have hxt : x ∈ t := by
        rcases List.mem_cons.mp hx with h | h
        · exact absurd h hxy
        · exact h
      exact ih seen hseen hxt
    · rw [if_neg hy]
      by_cases hxy : x = y
      · subst hxy
        simp only [countStr, List.filter_cons, if_pos rfl]
        have := @pyDedup_go_count_of_seen x (x :: seen)
          (List.mem_cons_self x seen) t
        simp only [countStr] at this
        simp [this]
      · have hxt : x ∈ t := by
          rcases List.mem_cons.mp hx with h | h
          · exact absurd h hxy
          · exact h
        simp only [countStr, List.filter_cons]
        rw [if_neg (by simp; exact fun hh => hxy hh.symm)]
        have hns : x ∉ y :: seen := by
          intro hh
          rcases List.mem_cons.mp hh with h | h
          · exact hxy h
          · exact hseen h
        exact ih (y :: seen) hns hxt

theorem pyDedup_count_of_mem {x : String} {l : List String} (hx : x ∈ l) :
    countStr x (pyDedup l) = 1 :=
  pyDedup_go_count_of_mem l [] (by simp) hx

/-! ## Helper lemmas: `str.replace` is the identity when the literal is absent -/

theorem pyReplaceFuel_id {old new' : List Char} (hold : old ≠ []) :
    ∀ (fuel : Nat) (l : List Char), containsSub old l = false →
      pyReplaceFuel old new' fuel l = l := by
  intro fuel
  induction fuel with
  | zero => intro l _; simp [pyReplaceFuel]
  | succ n ih =>
    intro l hnc
    cases l with
    | nil => simp [pyReplaceFuel]
    | cons c t =>
      unfold pyReplaceFuel
      simp only [containsSub, Bool.or_eq_false_iff] at hnc
      rw [if_neg (by simp [hnc.1])]
      rw [ih t hnc.2]

theorem pyReplace_id {s old new' : String} (hold : old.data ≠ [])
    (h : strContains s old = false) : pyReplace s old new' = s := by
  unfold pyReplace
  rw [pyReplaceFuel_id hold s.data.length s.data h]

/-! ## Helper lemmas: chart paths collected by the loop are well-formed -/

theorem containsSub_false_take {needle l : List Char} (k : Nat)
    (h : containsSub needle l = false) : containsSub needle (l.take k) = false := by
  cases hh : containsSub needle (l.take k) with
  | false => rfl
  | true =>
    have := containsSub_take k hh
    rw [h] at this
    exact absurd this (by simp)

theorem containsSub_false_drop {needle l : List Char} (k : Nat)
    (h : containsSub needle l = false) : containsSub needle (l.drop k) = false := by
  cases hh : containsSub needle (l.drop k) with
  | false => rfl
  | true =>
    have := containsSub_drop k hh
    rw [h] at this
    exact absurd this (by simp)

theorem containsSub_false_pyStripChars {needle l : List Char}
    (h : containsSub needle l = false) : containsSub needle (pyStripChars l) = false := by
  cases hh : containsSub needle (pyStripChars l) with
  | false => rfl
  | true =>
    have := containsSub_pyStripChars hh
    rw [h] at this
    exact absurd this (by simp)

theorem processToolCall_charts_shape {tools : Tools} {session : ToolSessionMemory}
    {ch : List String} {tc : ToolCallRequest}
    (h : ∀ p ∈ ch, chartPathWF p) :
    ∀ p ∈ (processToolCall tools session ch tc).chart_files, chartPathWF p := by
  intro p hp
  unfold processToolCall at hp
  cases hs : session.has_similar_failure tc.name tc.args with
  | some r =>
    rw [hs] at hp
    exact h p hp
  | none =>
    rw [hs] at hp
    cases hf : findTool tools tc.name with
    | none =>
      rw [hf] at hp
      exact h p hp
    | some f =>
      rw [hf] at hp
      simp only at hp
      by_cases hcc : strContains (f tc.args) "CHART_FILE:"
      · rw [if_pos hcc] at hp
        rcases List.mem_append.mp hp with hin | hin
        · exact h p hin
        · exact findChartsFuel_shape _ _ p hin
      · rw [if_neg hcc] at hp
        exact h p hp

theorem execToolCalls_charts_shape {tools : Tools} :
    ∀ (tcs : List ToolCallRequest) (session : ToolSessionMemory) (ch : List String),
      (∀ p ∈ ch, chartPathWF p) →
      ∀ p ∈ (execToolCalls tools session ch tcs).2.1, chartPathWF p := by
  intro tcs
  induction tcs with
  | nil => intro sess ch h p hp; exact h p hp
  | cons tc rest ih =>
    intro sess ch h p hp
    unfold execToolCalls at hp
    exact ih _ _ (processToolCall_charts_shape h) p hp

theorem toolLoop_charts_shape (model : Model) (tools : Tools) :
    ∀ (fuel iteration : Nat) (messages : List Msg) (session : ToolSessionMemory)
      (ch : List String) (fr : String) (inv : Nat),
      (∀ p ∈ ch, chartPathWF p) →
      ∀ p ∈ (toolLoop model tools fuel iteration messages session ch fr inv).chart_files,
        chartPathWF p := by
  intro fuel
  induction fuel with
  | zero => intro it msgs sess ch fr inv h p hp; exact h p (by simpa [toolLoop] using hp)
  | succ n ih =>
    intro it msgs sess ch fr inv h p hp
    unfold toolLoop at hp
    set M := (if it + 1 > 1 then injectSessionContext sess msgs else msgs) with hM
    by_cases hb : (model M).tool_calls.isEmpty
    · rw [if_neg (not_not_intro hb)] at hp
      exact h p hp
    · rw [if_pos hb] at hp
      exact ih _ _ _ _ _ _ (execToolCalls_charts_shape _ _ _ h) p hp

/-! ## Helper lemmas: post-processing -/

theorem parseThinking_nc {final : String}
    (hf : strContains final "CHART_FILE" = false) :
    strContains (parseThinking final).2 "CHART_FILE" = false := by
  by_cases hfe : final = ""
  · subst hfe
    decide
  · unfold parseThinking
    rw [if_pos hfe]
    have hthink : ∀ a b : Nat, strContains
        (String.mk ((final.data.drop a).take b)) "CHART_FILE" = false :=
      fun a b => containsSub_false_take b (containsSub_false_drop a hf)
    have hans : ∀ a : Nat, strContains
        (pyStrip (String.mk (final.data.drop a))) "CHART_FILE" = false :=
      fun a => containsSub_false_pyStripChars (containsSub_false_drop a hf)
    cases h1 : pyFind final "<thinking>" with
    | none =>
      show strContains
        (if (("", final) : String × String).2 = "" then
          (("" : String), if ("" : String) ≠ "" then ("" : String) else final)
         else ("", final)).2 "CHART_FILE" = false
      rw [if_neg (by simpa using hfe)]
      exact hf
    | some ts =>
      cases h2 : pyFind final "</thinking>" with
      | none =>
        show strContains
          (if (("", final) : String × String).2 = "" then
            (("" : String), if ("" : String) ≠ "" then ("" : String) else final)
           else ("", final)).2 "CHART_FILE" = false
        rw [if_neg (by simpa using hfe)]
        exact hf
      | some te =>
        show strContains
          (if (pyStrip (String.mk (final.data.drop (te + 11)))) = "" then
            (String.mk ((final.data.drop (ts + 10)).take (te - (ts + 10))),
             if String.mk ((final.data.drop (ts + 10)).take (te - (ts + 10))) ≠ "" then
               String.mk ((final.data.drop (ts + 10)).take (te - (ts + 10)))
             else final)
           else (String.mk ((final.data.drop (ts + 10)).take (te - (ts + 10))),
             pyStrip (String.mk (final.data.drop (te + 11))))).2 "CHART_FILE" = false
        by_cases hp2 : pyStrip (String.mk (final.data.drop (te + 11))) = ""
        · rw [if_pos hp2]
          by_cases hp1 : String.mk ((final.data.drop (ts + 10)).take (te - (ts + 10))) = ""
          · show strContains (if _ ≠ _ then _ else _) "CHART_FILE" = false
            rw [if_neg (by simpa using hp1)]
            exact hf
          · show strContains (if _ ≠ _ then _ else _) "CHART_FILE" = false
            rw [if_pos hp1]
            exact hthink (ts + 10) (te - (ts + 10))
        · rw [if_neg hp2]
          exact hans (te + 11)

theorem postProcess_empty_final (charts : List String) :
    postProcess "" charts =
      ("", if charts.isEmpty then apologyText
       else pyJoin " " (charts.map (fun p => "CHART_FILE:" ++ p)) ++ "\n\n" ++ chartOnlyText) := by
  have hpt : parseThinking "" = ("", "") := rfl
  unfold postProcess
  rw [hpt]
  by_cases hch : charts.isEmpty
  · rw [if_neg (not_not_intro hch), if_pos rfl, if_pos hch]
  · rw [if_pos hch, if_neg (by simp), if_neg (by simpa using hch)]

theorem postProcess_chart_answer (final : String) (charts : List String)
    (hch : charts.isEmpty = false)
    (hf : strContains final "CHART_FILE" = false) :
    ∃ A : String, (postProcess final charts).2 =
      pyJoin " " (charts.map (fun p => "CHART_FILE:" ++ p)) ++ "\n\n" ++ A ∧
      strContains A "CHART_FILE" = false := by
  unfold postProcess
  rw [if_pos (by simp [hch])]
  by_cases h2 : (parseThinking final).2 ≠ ""
  · rw [if_pos h2]
    exact ⟨(parseThinking final).2, rfl, parseThinking_nc hf⟩
  · rw [if_neg h2]
    exact ⟨chartOnlyText, rfl, by decide⟩

/-! ## Helper lemmas: projections of `generate_response_with_thinking` -/

theorem generate_answer_eq (agent : TelegramAgentState) (user_id : Nat)
    (message : String) (model : Model) (tools : Tools)
    (memory_context persistent_context : String) :
    (generate_response_with_thinking agent user_id message model tools
        memory_context persistent_context).answer =
      (postProcess
        (generate_response_with_thinking agent user_id message model tools
            memory_context persistent_context).loop.final_response
        (generate_response_with_thinking agent user_id message model tools
            memory_context persistent_context).loop.chart_files).2 := rfl

theorem generate_loop_eq (agent : TelegramAgentState) (user_id : Nat)
    (message : String) (model : Model) (tools : Tools)
    (memory_context persistent_context : String) :
    ∃ (msgs : List Msg) (sess : ToolSessionMemory),
      (generate_response_with_thinking agent user_id message model tools
          memory_context persistent_context).loop = runToolLoop model tools msgs sess :=
  ⟨_, _, rfl⟩

theorem generate_charts_shape (agent : TelegramAgentState) (user_id : Nat)
    (message : String) (model : Model) (tools : Tools)
    (memory_context persistent_context : String) :
    ∀ p ∈ (generate_response_with_thinking agent user_id message model tools
        memory_context persistent_context).loop.chart_files, chartPathWF p := by
  rcases generate_loop_eq agent user_id message model tools
    memory_context persistent_context with ⟨msgs, sess, heq⟩
  rw [heq]
  unfold runToolLoop
  exact toolLoop_charts_shape model tools maxIterations 0 msgs sess [] "" 0
    (by intro p hp; cases hp)

/-! ## The claims -/

/-- Claim C1: for every orchestration run, the tool-execution loop performs
at most `MAX_ITER = 15` model invocations — the model is invoked exactly
once per iteration, and once the counter reaches 15 no further invocation
is permitted.  Stated for the loop entry point over an arbitrary model
oracle, tool set and initial message/session state. -/
theorem claim_C1_loop_bounded (model : Model) (tools : Tools) (messages : List Msg)
    (session : ToolSessionMemory) :
    (runToolLoop model tools messages session).invocations ≤ maxIterations ∧
    maxIterations = 15 := by
  constructor
  · have := toolLoop_invocations_le model tools maxIterations 0 messages session [] "" 0
    simpa [runToolLoop] using this
  · rfl

/-- Claim C9: after every `add_to_history` append the stored history is the
last 20 entries of the old history extended by the new message (FIFO
eviction of the oldest turns), and its length never exceeds 20. -/
theorem claim_C9_history_bounded (agent : TelegramAgentState) (user_id : Nat)
    (role content : String) :
    get_history (add_to_history agent user_id role content) user_id =
      lastN 20 (get_history agent user_id ++
        [if role = "user" then Msg.human content else Msg.ai content []]) ∧
    (get_history (add_to_history agent user_id role content) user_id).length ≤ 20 := by
  have hget : get_history (add_to_history agent user_id role content) user_id =
      (if (get_history agent user_id ++
          [if role = "user" then Msg.human content else Msg.ai content []]).length > 20 then
        lastN 20 (get_history agent user_id ++
          [if role = "user" then Msg.human content else Msg.ai content []])
       else (get_history agent user_id ++
          [if role = "user" then Msg.human content else Msg.ai content []])) := by
    show (alistGet (alistInsert agent.conversations user_id _) user_id).getD [] = _
    rw [alistGet_insert_self]
    rfl
  constructor
  · rw [hget]
    by_cases hl : (get_history agent user_id ++
        [if role = "user" then Msg.human content else Msg.ai content []]).length > 20
    · rw [if_pos hl]
    · rw [if_neg hl]
      unfold lastN
      have hz : (get_history agent user_id ++
          [if role = "user" then Msg.human content else Msg.ai content []]).length - 20 = 0 := by
        omega
      rw [hz]
      simp
  · rw [hget]
    by_cases hl : (get_history agent user_id ++
        [if role = "user" then Msg.human content else Msg.ai content []]).length > 20
    · rw [if_pos hl]
      simp only [lastN, List.length_drop]
      omega
    · rw [if_neg hl]
      omega

/-- Claim C10: a requested tool call intercepted by `has_similar_failure`
leaves the Tool Session Memory (and the chart list) unchanged — no record
is appended, no failure pattern is touched, the tool is not executed, so
`get_failure_count` and the `should_skip_tool` circuit breaker are
unaffected for every tool. -/
theorem claim_C10_skip_frame (tools : Tools) (m : ToolSessionMemory)
    (ch : List String) (tc : ToolCallRequest) (r : String)
    (h : m.has_similar_failure tc.name tc.args = some r) :
    processToolCall tools m ch tc =
      ⟨m, ch, Msg.tool (skipResultText r) tc.id, false⟩ ∧
    (processToolCall tools m ch tc).session.calls = m.calls ∧
    (processToolCall tools m ch tc).session.failed_patterns = m.failed_patterns ∧
    (∀ t', (processToolCall tools m ch tc).session.get_failure_count t' =
        m.get_failure_count t' ∧
      (processToolCall tools m ch tc).session.should_skip_tool t' =
        m.should_skip_tool t') := by
  have he := @processToolCall_skip tools m ch tc r h
  exact ⟨he, by rw [he], by rw [he], fun t' => ⟨by rw [he], by rw [he]⟩⟩

/-- Witness for C10 at a concrete memory state: one recorded failure of
tool `"t"`, then a second identical request; the skip leaves memory
untouched. -/
theorem claim_C10_skip_frame_witness :
    processToolCall []
        (ToolSessionMemory.init.record_call "t" [] "boom failed" false) []
        ⟨"t", [], "9"⟩ =
      ⟨ToolSessionMemory.init.record_call "t" [] "boom failed" false, [],
        Msg.tool (skipResultText "boom failed") "9", false⟩ ∧
    (processToolCall []
        (ToolSessionMemory.init.record_call "t" [] "boom failed" false) []
        ⟨"t", [], "9"⟩).session.calls =
      (ToolSessionMemory.init.record_call "t" [] "boom failed" false).calls ∧
    (processToolCall []
        (ToolSessionMemory.init.record_call "t" [] "boom failed" false) []
        ⟨"t", [], "9"⟩).session.failed_patterns =
      (ToolSessionMemory.init.record_call "t" [] "boom failed" false).failed_patterns ∧
    (∀ t', (processToolCall []
          (ToolSessionMemory.init.record_call "t" [] "boom failed" false) []
          ⟨"t", [], "9"⟩).session.get_failure_count t' =
        (ToolSessionMemory.init.record_call "t" [] "boom failed" false).get_failure_count t' ∧
      (processToolCall []
          (ToolSessionMemory.init.record_call "t" [] "boom failed" false) []
          ⟨"t", [], "9"⟩).session.should_skip_tool t' =
        (ToolSessionMemory.init.record_call "t" [] "boom failed" false).should_skip_tool t') :=
  claim_C10_skip_frame [] (ToolSessionMemory.init.record_call "t" [] "boom failed" false)
    [] ⟨"t", [], "9"⟩ "boom failed" (by decide)

/-- Claim C3: once a (tool, args) call is recorded as a failure, any later
requested call whose fingerprint is argument-for-argument identical is
detected by `has_similar_failure` (which returns the stored failure
reason), the tool is not re-executed, and the synthetic skipped
`ToolMessage` is appended instead. -/
theorem claim_C3_exact_fingerprint_skip (m : ToolSessionMemory) (t : String)
    (a : Args) (res : String) (a' : Args) (tools : Tools) (ch : List String)
    (cid : String)
    (h : ToolSessionMemory._get_pattern_key t a' = ToolSessionMemory._get_pattern_key t a) :
    alistGet (m.record_call t a res false).failed_patterns
        (ToolSessionMemory._get_pattern_key t a) =
      some (ToolSessionMemory._extract_failure_reason res) ∧
    (m.record_call t a res false).has_similar_failure t a' =
      some (ToolSessionMemory._extract_failure_reason res) ∧
    processToolCall tools (m.record_call t a res false) ch ⟨t, a', cid⟩ =
      ⟨m.record_call t a res false, ch,
        Msg.tool (skipResultText (ToolSessionMemory._extract_failure_reason res)) cid,
        false⟩ := by
  have hget : alistGet (m.record_call t a res false).failed_patterns
      (ToolSessionMemory._get_pattern_key t a) =
      some (ToolSessionMemory._extract_failure_reason res) := by
    rw [ToolSessionMemory.record_call_failed_patterns]
    exact alistGet_insert_self _ _ _
  have hsim : (m.record_call t a res false).has_similar_failure t a' =
      some (ToolSessionMemory._extract_failure_reason res) :=
    ToolSessionMemory.has_similar_failure_exact (by rw [h]; exact hget)
  exact ⟨hget, hsim, processToolCall_skip hsim⟩

/-- Witness for C3: the spec's own scenario — a failed
`search_catalogue {query: "blue widget"}` followed by the identical
request, which is answered from memory and skipped. -/
theorem claim_C3_exact_fingerprint_skip_witness :
    (ToolSessionMemory.init.record_call "search_catalogue"
        [("query", "blue widget")] "No items found" false).has_similar_failure
      "search_catalogue" [("query", "blue widget")] =
      some (ToolSessionMemory._extract_failure_reason "No items found") ∧
    processToolCall []
        (ToolSessionMemory.init.record_call "search_catalogue"
          [("query", "blue widget")] "No items found" false) []
        ⟨"search_catalogue", [("query", "blue widget")], "1"⟩ =
      ⟨ToolSessionMemory.init.record_call "search_catalogue"
          [("query", "blue widget")] "No items found" false, [],
        Msg.tool (skipResultText
          (ToolSessionMemory._extract_failure_reason "No items found")) "1", false⟩ :=
  ⟨(claim_C3_exact_fingerprint_skip ToolSessionMemory.init "search_catalogue"
      [("query", "blue widget")] "No items found" [("query", "blue widget")]
      [] [] "1" rfl).2.1,
   (claim_C3_exact_fingerprint_skip ToolSessionMemory.init "search_catalogue"
      [("query", "blue widget")] "No items found" [("query", "blue widget")]
      [] [] "1" rfl).2.2⟩

/-- Claim C4 as stated is false on the code, in two ways.  (1) The
variation test requires *both* stop-word-stripped token sets to be
non-empty: a failure on the query `"the"` (token set empty, hence a subset
of every token set) does not flag the later superset query `"widget"`.
(2) `search_gmail` gets a query-based fingerprint but is excluded from the
variation scan: a failure on `"quarterly report"` does not flag the
superset query `"quarterly report budget"`. -/
theorem claim_C4_counterexample :
    ToolSessionMemory.tokenSubset (ToolSessionMemory.variationTokens "the")
        (ToolSessionMemory.variationTokens "widget") = true ∧
    (ToolSessionMemory.init.record_call "search_catalogue" [("query", "the")]
        "No items found" false).has_similar_failure
      "search_catalogue" [("query", "widget")] = none ∧
    ToolSessionMemory.variationTokens "quarterly report" ≠ [] ∧
    ToolSessionMemory.tokenSubset (ToolSessionMemory.variationTokens "quarterly report")
        (ToolSessionMemory.variationTokens "quarterly report budget") = true ∧
    (ToolSessionMemory.init.record_call "search_gmail" [("query", "quarterly report")]
        "No messages found" false).has_similar_failure
      "search_gmail" [("query", "quarterly report budget")] = none := by
  refine ⟨by decide, by decide, by decide, by decide, by decide⟩

/-- Claim C4 (amended): restricted to the two tools the code's variation
scan covers (`search_catalogue`, `search_drive_files`) and to failed
queries whose stop-word-stripped token set is non-empty, a recorded
failure on `q1` makes `has_similar_failure` flag every later query whose
token set is a superset of `q1`'s. -/
theorem claim_C4_superset_flagged (m : ToolSessionMemory) (t : String)
    (a1 a2 : Args) (res : String)
    (ht : t = "search_catalogue" ∨ t = "search_drive_files")
    (h1 : ToolSessionMemory.variationTokens
        (pyStrip (pyLower (ToolSessionMemory.rawQuery a1))) ≠ [])
    (h2 : ToolSessionMemory.tokenSubset
        (ToolSessionMemory.variationTokens
          (pyStrip (pyLower (ToolSessionMemory.rawQuery a1))))
        (ToolSessionMemory.variationTokens
          (pyStrip (pyLower (ToolSessionMemory.rawQuery a2)))) = true) :
    ((m.record_call t a1 res false).has_similar_failure t a2).isSome = true := by
  have hkey3 : t ∈ ToolSessionMemory.searchKeyTools := by
    rcases ht with h | h <;> subst h <;> decide
  have hkey2 : t ∈ ToolSessionMemory.variationScanTools := by
    rcases ht with h | h <;> subst h <;> decide
  have hkeya1 : ToolSessionMemory._get_pattern_key t a1 =
      t ++ ":" ++ pyStrip (pyLower (ToolSessionMemory.rawQuery a1)) := by
    unfold ToolSessionMemory._get_pattern_key
    rw [if_pos hkey3]
  have hafter : afterFirstColon
      (t ++ ":" ++ pyStrip (pyLower (ToolSessionMemory.rawQuery a1))) =
      pyStrip (pyLower (ToolSessionMemory.rawQuery a1)) := by
    have hdata : (t ++ ":" ++ pyStrip (pyLower (ToolSessionMemory.rawQuery a1))) =
        String.mk (t.data ++ ':' ::
          (pyStrip (pyLower (ToolSessionMemory.rawQuery a1))).data) := by
      apply String.ext
      show ((t ++ ":") ++ pyStrip (pyLower (ToolSessionMemory.rawQuery a1))).data = _
      rw [String.data_append, String.data_append]
      show (t.data ++ [':']) ++ _ = _
      rw [List.append_assoc]
      rfl
    have hcol : ∀ c ∈ t.data, c ≠ ':' := by
      rcases ht with h | h <;> subst h <;> decide
    rw [hdata, afterFirstColon_append hcol]
  have hpre : (t ++ ":").data.isPrefixOf
      (t ++ ":" ++ pyStrip (pyLower (ToolSessionMemory.rawQuery a1))).data = true := by
    show (t ++ ":").data.isPrefixOf
      ((t ++ ":") ++ pyStrip (pyLower (ToolSessionMemory.rawQuery a1))).data = true
    rw [String.data_append]
    exact isPrefixOf_append_self _ _
  have hmem : (ToolSessionMemory._get_pattern_key t a1,
      ToolSessionMemory._extract_failure_reason res) ∈
        (m.record_call t a1 res false).failed_patterns := by
    rw [ToolSessionMemory.record_call_failed_patterns]
    exact alistInsert_mem_self _ _ _
  have hvar : ToolSessionMemory._is_search_variation
      (pyStrip (pyLower (ToolSessionMemory.rawQuery a2)))
      (afterFirstColon (ToolSessionMemory._get_pattern_key t a1)) = true := by
    rw [hkeya1, hafter]
    exact ToolSessionMemory.variation_of_subset h1 h2
  have hscan := ToolSessionMemory.searchVariationScan_isSome hmem
    (by rw [hkeya1]; exact hpre) hvar
  cases hg : alistGet (m.record_call t a1 res false).failed_patterns
      (ToolSessionMemory._get_pattern_key t a2) with
  | some r =>
    rw [ToolSessionMemory.has_similar_failure_exact hg]
    rfl
  | none =>
    rw [ToolSessionMemory.has_similar_failure_none_eq hg, if_pos hkey2]
    exact hscan

/-- Witness for C4 (amended): a failed `"blue widget"` catalogue search
flags the later superset query `"the blue widget again"`. -/
theorem claim_C4_superset_flagged_witness :
    ((ToolSessionMemory.init.record_call "search_catalogue"
        [("query", "blue widget")] "No items found" false).has_similar_failure
      "search_catalogue" [("query", "the blue widget again")]).isSome = true :=
  claim_C4_superset_flagged ToolSessionMemory.init "search_catalogue"
    [("query", "blue widget")] [("query", "the blue widget again")] "No items found"
    (Or.inl rfl) (by decide) (by decide)

/-- Claim C2 as stated is false on the code: in a run whose model requests
a tool call on every one of the 15 iterations (each reply carrying the
text `"LAST"`), the loop exhausts its budget with `final_response` still
`""`, and the returned answer is the fixed apology text — not the last
reply's text. -/
theorem claim_C2_counterexample :
    (generate_response_with_thinking fixtureAgent 7 "do the thing"
        alwaysToolModel [] "" "").loop.invocations = 15 ∧
    (generate_response_with_thinking fixtureAgent 7 "do the thing"
        alwaysToolModel [] "" "").answer = apologyText ∧
    (generate_response_with_thinking fixtureAgent 7 "do the thing"
        alwaysToolModel [] "" "").answer ≠ "LAST" := by
  refine ⟨by decide, by decide, by decide⟩

/-- Claim C2 (amended): a run whose model requests at least one tool call
on every invocation terminates (without raising — the embedding is total)
after exactly `maxIterations` model invocations with `final_response`
still empty, and the answer returned is *not* the last reply's text but
the fixed apology (or, when chart markers were captured, the chart-marker
message with the fixed chart fallback text). -/
theorem claim_C2_budget_exhausted (agent : TelegramAgentState) (user_id : Nat)
    (message : String) (model : Model) (tools : Tools)
    (memory_context persistent_context : String)
    (h : ∀ msgs, (model msgs).tool_calls ≠ []) :
    (generate_response_with_thinking agent user_id message model tools
        memory_context persistent_context).loop.final_response = "" ∧
    (generate_response_with_thinking agent user_id message model tools
        memory_context persistent_context).loop.invocations = maxIterations ∧
    (generate_response_with_thinking agent user_id message model tools
        memory_context persistent_context).answer =
      (if (generate_response_with_thinking agent user_id message model tools
            memory_context persistent_context).loop.chart_files.isEmpty then
        apologyText
       else
        pyJoin " " ((generate_response_with_thinking agent user_id message model tools
            memory_context persistent_context).loop.chart_files.map
          (fun p => "CHART_FILE:" ++ p)) ++ "\n\n" ++ chartOnlyText) := by
  rcases generate_loop_eq agent user_id message model tools
    memory_context persistent_context with ⟨msgs, sess, heq⟩
  have hall := toolLoop_all_tool_calls model tools h maxIterations 0 msgs sess [] "" 0
  have hfr : (generate_response_with_thinking agent user_id message model tools
      memory_context persistent_context).loop.final_response = "" := by
    rw [heq]
    simpa [runToolLoop] using hall.1
  have hinv : (generate_response_with_thinking agent user_id message model tools
      memory_context persistent_context).loop.invocations = maxIterations := by
    rw [heq]
    have := hall.2
    simpa [runToolLoop] using this
  refine ⟨hfr, hinv, ?_⟩
  rw [generate_answer_eq, hfr, postProcess_empty_final]

/-- Witness for C2 (amended) at the concrete always-requesting model. -/
theorem claim_C2_budget_exhausted_witness :
    (generate_response_with_thinking fixtureAgent 7 "do the thing"
        alwaysToolModel [] "" "").loop.final_response = "" ∧
    (generate_response_with_thinking fixtureAgent 7 "do the thing"
        alwaysToolModel [] "" "").loop.invocations = maxIterations ∧
    (generate_response_with_thinking fixtureAgent 7 "do the thing"
        alwaysToolModel [] "" "").answer =
      (if (generate_response_with_thinking fixtureAgent 7 "do the thing"
            alwaysToolModel [] "" "").loop.chart_files.isEmpty then
        apologyText
       else
        pyJoin " " ((generate_response_with_thinking fixtureAgent 7 "do the thing"
            alwaysToolModel [] "" "").loop.chart_files.map
          (fun p => "CHART_FILE:" ++ p)) ++ "\n\n" ++ chartOnlyText) :=
  claim_C2_budget_exhausted fixtureAgent 7 "do the thing" alwaysToolModel [] "" ""
    (fun _ => List.cons_ne_nil _ _)

/-- Claim C5 is right about the intended lifecycle but the code is wrong:
`clear_tool_session` (and hence `ToolSessionMemory.clear`) has no call
site anywhere in the repository, so a run's failure patterns survive into
the user's next run.  Concretely: after one completed run in which a
catalogue search failed, the same user's next run *starts* from a session
memory that still holds that failure pattern — not from an empty one. -/
theorem claim_C5_session_never_cleared :
    (generate_response_with_thinking
        (generate_response_with_thinking fixtureAgent 9 "find the blue widget"
          oneSearchModel failingSearchTools "" "").agent
        9 "find it again" oneSearchModel failingSearchTools "" "").sessionAtStart.failed_patterns =
      [("search_catalogue:blue widget", "No items found in catalogues")] ∧
    (generate_response_with_thinking
        (generate_response_with_thinking fixtureAgent 9 "find the blue widget"
          oneSearchModel failingSearchTools "" "").agent
        9 "find it again" oneSearchModel failingSearchTools "" "").sessionAtStart ≠
      ToolSessionMemory.init := by
  refine ⟨by decide, by decide⟩

/-- Claim C8 is right about the intended extraction but the code is wrong:
on `"My name is Alex and I work at Acme"` the greedy optional two-word
group of `r"my name is (\w+(?:\s+\w+)?)"` swallows the conjunction, so the
code upserts `(identity, name) → "Alex And"` (and `(identity, company) →
"Acme"`), not `(identity, name) → "Alex"` as the spec's scenario states. -/
theorem claim_C8_name_capture_bug :
    detect_memory_triggers "My name is Alex and I work at Acme" =
      [("identity", "name", "Alex And"), ("identity", "company", "Acme")] ∧
    process_message_for_memory [] "My name is Alex and I work at Acme" =
      ([(("identity", "name"), "Alex And"), (("identity", "company"), "Acme")],
       ["identity/name: Alex And", "identity/company: Acme"]) ∧
    ("identity", "name", "Alex") ∉
      detect_memory_triggers "My name is Alex and I work at Acme" := by
  refine ⟨by decide, by decide, by decide⟩

/-- Claim C7 is right about the intended behaviour but the code is wrong:
the complexity-gate predicate itself distinguishes `"hi"` from the
80-character message, yet both produce the *same* system directive — the
two `str.replace` target literals (`"CRITICAL: CHAIN OF THOUGHT..."` and
the `"<thinking>\n1. Analyze..."` block) occur nowhere in the repository's
system prompt, so the "terse" rewrite is a no-op and the
thinking-tags instruction is never suppressed. -/
theorem claim_C7_terse_rewrite_noop :
    is_simple_query "hi" = true ∧
    is_simple_query eightyCharMessage = false ∧
    eightyCharMessage.length = 80 ∧
    (∀ persistent_context memory_context : String,
      buildSystemContent defaultSystemPrompt "hi" persistent_context memory_context =
        buildSystemContent defaultSystemPrompt eightyCharMessage
          persistent_context memory_context) ∧
    strContains (buildSystemContent defaultSystemPrompt "hi" "" "")
      "<thinking></thinking>" = true := by
  have hnc1 : strContains defaultSystemPrompt thinkingReplaceTarget1 = false := by decide
  have hnc2 : strContains defaultSystemPrompt thinkingReplaceTarget2 = false := by decide
  have hrepl : pyReplace (pyReplace defaultSystemPrompt thinkingReplaceTarget1
      thinkingReplacement1) thinkingReplaceTarget2 "" = defaultSystemPrompt := by
    rw [pyReplace_id (by decide) hnc1, pyReplace_id (by decide) hnc2]
  have hbuild : ∀ pc mc : String,
      buildSystemContent defaultSystemPrompt "hi" pc mc =
        buildSystemContent defaultSystemPrompt eightyCharMessage pc mc := by
    intro pc mc
    unfold buildSystemContent
    rw [hrepl]
    simp only [ite_self]
  refine ⟨by decide, by decide, by decide, hbuild, ?_⟩
  have hhi : buildSystemContent defaultSystemPrompt "hi" "" "" = defaultSystemPrompt := by
    unfold buildSystemContent
    rw [hrepl]
    simp only [ite_self]
    simp
  rw [hhi]
  decide

/-- Claim C6 as stated is false on the code: a chart path can appear in
*both* the transport artifact list and the rendered answer.  With tool
result `"CHART_FILE:p done"` and final model text
`"CHART_CHART_FILE:q FILE:p"`, the non-rescanning `re.sub` removal
juxtaposes the fragments `"CHART_"` and `"FILE:p"` into a fresh
`"CHART_FILE:p"` in the rendered text, while `"p"` is also in the
extracted chart list. -/
theorem claim_C6_counterexample :
    (generate_response_with_thinking fixtureAgent 3 "make a chart"
        chartEchoModel chartTools "" "").loop.chart_files = ["p"] ∧
    "p" ∈ (send_conversational_response
        (generate_response_with_thinking fixtureAgent 3 "make a chart"
          chartEchoModel chartTools "" "").answer).1 ∧
    strContains (send_conversational_response
        (generate_response_with_thinking fixtureAgent 3 "make a chart"
          chartEchoModel chartTools "" "").answer).2 "CHART_FILE:p" = true := by
  refine ⟨by decide, by decide, by decide⟩

/-- Claim C6 (amended): provided the model's final reply text does not
itself contain the substring `"CHART_FILE"`, every chart path captured
from a tool result during the run appears exactly once in the transport
artifact list and never in the rendered answer text. -/
theorem claim_C6_artifact_roundtrip (agent : TelegramAgentState) (user_id : Nat)
    (message : String) (model : Model) (tools : Tools)
    (memory_context persistent_context : String)
    (h : strContains (generate_response_with_thinking agent user_id message model tools
        memory_context persistent_context).loop.final_response "CHART_FILE" = false) :
    ∀ p ∈ (generate_response_with_thinking agent user_id message model tools
        memory_context persistent_context).loop.chart_files,
      countStr p (send_conversational_response
        (generate_response_with_thinking agent user_id message model tools
          memory_context persistent_context).answer).1 = 1 ∧
      strContains (send_conversational_response
        (generate_response_with_thinking agent user_id message model tools
          memory_context persistent_context).answer).2 ("CHART_FILE:" ++ p) = false := by
  intro p hp
  have hwf := generate_charts_shape agent user_id message model tools
    memory_context persistent_context
  have hwfL : ∀ q ∈ (generate_response_with_thinking agent user_id message model tools
      memory_context persistent_context).loop.chart_files, chartPathWF q := hwf
  have hchne : (generate_response_with_thinking agent user_id message model tools
      memory_context persistent_context).loop.chart_files ≠ [] :=
    List.ne_nil_of_mem hp
  have hch : (generate_response_with_thinking agent user_id message model tools
      memory_context persistent_context).loop.chart_files.isEmpty = false := by
    simpa [List.isEmpty_iff] using hchne
  obtain ⟨A, hansA, hAnc⟩ := postProcess_chart_answer
    (generate_response_with_thinking agent user_id message model tools
      memory_context persistent_context).loop.final_response
    (generate_response_with_thinking agent user_id message model tools
      memory_context persistent_context).loop.chart_files hch h
  have hanswer : (generate_response_with_thinking agent user_id message model tools
      memory_context persistent_context).answer =
      pyJoin " " ((generate_response_with_thinking agent user_id message model tools
          memory_context persistent_context).loop.chart_files.map
        (fun q => "CHART_FILE:" ++ q)) ++ "\n\n" ++ A := by
    rw [generate_answer_eq]
    exact hansA
  -- character-level decomposition of the outgoing answer
  have hdata : (generate_response_with_thinking agent user_id message model tools
      memory_context persistent_context).answer.data =
      markersData (generate_response_with_thinking agent user_id message model tools
        memory_context persistent_context).loop.chart_files ++ '\n' :: '\n' :: A.data := by
    rw [hanswer, String.data_append, String.data_append, join_markers_data]
    show markersData _ ++ ['\n', '\n'] ++ A.data = _
    rw [List.append_assoc]
    rfl
  -- the marker "CHART_FILE:" is "CHART_FILE" extended by a colon
  have hmarker : markerChars = "CHART_FILE".data ++ [':'] := rfl
  have hAnc2 : containsSub markerChars A.data = false := by
    cases hh : containsSub markerChars A.data with
    | false => rfl
    | true =>
      rw [hmarker] at hh
      have h5 := containsSub_needle_prefix hh
      have hAncC : containsSub "CHART_FILE".data A.data = false := hAnc
      rw [hAncC] at h5
      exact absurd h5 (by simp)
  -- the transport sees a marker, so it takes the chart branch
  have hguard : strContains (generate_response_with_thinking agent user_id message model
      tools memory_context persistent_context).answer "CHART_FILE:" = true := by
    unfold strContains
    rw [hdata]
    cases hcf : (generate_response_with_thinking agent user_id message model tools
        memory_context persistent_context).loop.chart_files with
    | nil => exact absurd hcf hchne
    | cons c0 rest =>
      rcases markersData_cons c0 rest with ⟨X, hX⟩
      rw [hX, List.append_assoc]
      exact containsSub_of_isPrefixOf (isPrefixOf_append_self _ _)
  have hsend : send_conversational_response
      (generate_response_with_thinking agent user_id message model tools
        memory_context persistent_context).answer =
      (pyDedup (findCharts (generate_response_with_thinking agent user_id message model
          tools memory_context persistent_context).answer),
       pyStrip (subCharts (generate_response_with_thinking agent user_id message model
          tools memory_context persistent_context).answer)) := by
    unfold send_conversational_response
    rw [if_pos hguard]
  -- the transport's findall recovers exactly the loop's chart list
  have hfind : findCharts (generate_response_with_thinking agent user_id message model
      tools memory_context persistent_context).answer =
      (generate_response_with_thinking agent user_id message model tools
        memory_context persistent_context).loop.chart_files := by
    unfold findCharts
    rw [hdata]
    exact findCharts_chain _ A.data _ hwfL hAnc2 hchne (le_refl _)
  -- the transport's marker removal leaves only the model text
  have hsub : subCharts (generate_response_with_thinking agent user_id message model
      tools memory_context persistent_context).answer =
      String.mk (A.data.dropWhile pyWS) := by
    unfold subCharts
    rw [hdata]
    rw [subCharts_chain _ A.data _ hwfL hAnc2 hchne (le_refl _)]
  rw [hsend]
  constructor
  · show countStr p (pyDedup (findCharts _)) = 1
    rw [hfind]
    exact pyDedup_count_of_mem hp
  · show strContains (pyStrip (subCharts _)) ("CHART_FILE:" ++ p) = false
    rw [hsub]
    cases hh : strContains (pyStrip (String.mk (A.data.dropWhile pyWS)))
        ("CHART_FILE:" ++ p) with
    | false => rfl
    | true =>
      exfalso
      have h1 : containsSub ("CHART_FILE:" ++ p).data
          (pyStripChars (A.data.dropWhile pyWS)) = true := hh
      have h2 : containsSub markerChars (pyStripChars (A.data.dropWhile pyWS)) = true := by
        have hmp : ("CHART_FILE:" ++ p).data = markerChars ++ p.data := by
          rw [String.data_append]
          rfl
        rw [hmp] at h1
        exact containsSub_needle_prefix h1
      have h3 : containsSub markerChars (A.data.dropWhile pyWS) = true :=
        containsSub_pyStripChars h2
      have h4 : containsSub markerChars A.data = true :=
        containsSub_dropWhile pyWS h3
      rw [hAnc2] at h4
      exact absurd h4 (by simp)

/-- Witness for C6 (amended): a run producing one chart and a plain
`"Done"` reply — the path `"p"` is listed once for the transport and does
not occur in the rendered text. -/
theorem claim_C6_artifact_roundtrip_witness :
    countStr "p" (send_conversational_response
        (generate_response_with_thinking fixtureAgent 3 "make a chart"
          chartPlainModel chartTools "" "").answer).1 = 1 ∧
    strContains (send_conversational_response
        (generate_response_with_thinking fixtureAgent 3 "make a chart"
          chartPlainModel chartTools "" "").answer).2 ("CHART_FILE:" ++ "p") = false :=
  claim_C6_artifact_roundtrip fixtureAgent 3 "make a chart" chartPlainModel chartTools
    "" "" (by decide) "p" (by decide)

end GtBot
